import Mathlib

/-!
# LoRaWAN node control core (apps/lorawan/main-node.c) and the usound module
(unwired-modules/umdk-usound/umdk-usound.c)

A shallow embedding of the session manager (`node_join`, `sender_thread`), the
uplink/downlink pipeline (`appdata_received`, `unwds_callback`) and the usound
module's two periodic tasks, its command handler and its configuration
handling, followed by the properties proved about them.

Conventions.
* C integers are `Nat` / `Int`; a store into a `uint8_t` is `u8`, a conversion to
  `uint32_t` is `u32`, a conversion to `int8_t` is `i8`.
* One iteration of a thread's `while (1)` loop is one function: it takes the
  state and the received message and returns the new state and the list of
  externally visible effects, in program order.
* Results of calls into code outside the two files (network stack, ADC, router,
  random source) are inputs of the functions.
-/

namespace Riot

/-! ## Machine integers -/

/-- Value stored by an assignment of the C `int` value `x` to a `uint8_t`. -/
def u8 (x : Int) : Nat := (x % 256).toNat

/-- Value obtained by converting the C `int` value `x` to `uint32_t`. -/
def u32 (x : Int) : Nat := (x % 4294967296).toNat

/-- Value obtained by converting the C `int` value `x` to `int8_t`
(two's complement, the value is reduced modulo 256 into [-128, 127]). -/
def i8 (x : Int) : Int := (x + 128) % 256 - 128

/-! ## Data model -/

/-- Modelled from the spec: `module_data_t` is declared in unwds-common.h, which
is absent. The spec describes it as a bounded byte buffer, a length, an
acknowledgement flag and a signal-strength annotation. The buffer is a map from
index to byte; indices at or above the capacity `UNWDS_MAX_DATA_LEN` lie outside
the C array. -/
structure module_data_t where
  length : Nat
  data : Nat → Nat
  as_ack : Bool
  rssi : Int

/-- The C initialiser `module_data_t x = {}`: every member zero. -/
def module_data_zero : module_data_t :=
  { length := 0, data := fun _ => 0, as_ack := false, rssi := 0 }

/-- The bytes `d[0] .. d[n-1]` of a buffer, as the list handed to a function
taking `(pointer, length)`. -/
def bytes_of (d : Nat → Nat) (n : Nat) : List Nat := (List.range n).map d

/-- The assignment `d[i] = v` on a buffer. -/
def store (d : Nat → Nat) (i v : Nat) : Nat → Nat := fun j => if j = i then v else d j

/-- Return codes of the network stack (`semtech_loramac_join`,
`semtech_loramac_send`). The enumerators are declared in semtech_loramac.h,
which is absent; the ones the two `switch` statements name are distinct case
labels, every other value is `other`. -/
inductive LoramacStatus where
  | JOIN_SUCCEEDED
  | RESTRICTED
  | BUSY
  | NOT_JOINED
  | JOIN_FAILED
  | TX_SCHEDULED
  | other (code : Int)
  deriving DecidableEq, Repr

/-- Message types the network stack posts to the sender thread
(`MSG_TYPE_LORAMAC_*`, distinct case labels of the `switch` on `msg.type`). -/
inductive LoramacMsgType where
  | TX_DONE
  | TX_CNF_FAILED
  | RX
  | JOIN
  | other (type : Nat)
  deriving DecidableEq, Repr

/-- Node classes of the settings (`LS_ED_CLASS_A`, `LS_ED_CLASS_B`,
`LS_ED_CLASS_C`). -/
inductive NodeClass where
  | LS_ED_CLASS_A
  | LS_ED_CLASS_B
  | LS_ED_CLASS_C
  deriving DecidableEq, Repr

/-- The two members of `unwds_get_node_settings()` the session manager reads. -/
structure NodeSettings where
  max_retr : Nat
  nodeclass : NodeClass
  deriving DecidableEq, Repr

/-- The two file-scope counters `current_join_retries` and `uplinks_failed`
(both `uint8_t`). -/
structure SessionState where
  current_join_retries : Nat
  uplinks_failed : Nat
  deriving DecidableEq, Repr

/-- A received message: who sent it and its type. -/
structure msg_t where
  sender_pid : Int
  type : LoramacMsgType
  deriving DecidableEq, Repr

/-- Result codes of the router that `appdata_received` compares against, and the
capacity of `module_data_t`; all three are defined in unwds-common.h, which is
absent. -/
structure UnwdsConsts where
  UNWDS_MODULE_NOT_FOUND : Int
  UNWDS_MODULE_NO_DATA : Int
  UNWDS_MAX_DATA_LEN : Nat

/-- Readings of the two diagnostic ADC lines during one call of
`unwds_callback`, and the helper `convert_to_be_sam` (utils.c, absent) applied to
a one-byte value. -/
structure AdcEnv where
  temp_init : Int
  temp_sample : Int
  vref_init : Int
  vref_sample : Int
  convert_to_be_sam : Int → Int

/-- Externally visible actions of the pipeline and the session manager. -/
inductive Effect where
  | join_attempt
  | msg_join_sent
  | retry_timer_set (lower upper delay : Nat)
  | appdata_call (payload : List Nat)
  | router_call (modid : Nat) (cmd : List Nat)
  | encoder_call (length : Nat)
  | loramac_send (payload : List Nat)
  deriving DecidableEq, Repr

/-- What the surroundings answer during one iteration of `sender_thread`. -/
structure Env where
  loramac_pid : Int
  join_res : LoramacStatus
  random_uint32_range : Nat → Nat → Nat
  rx_payload : List Nat
  rx_ack : Bool
  stack_cmd : module_data_t
  unwds_send_to_module : Nat → module_data_t → module_data_t → Int × module_data_t
  adc : AdcEnv
  send_res : LoramacStatus

/-! ## Session manager -/

/-- The counter update of `node_join`: count the attempt, saturating at 120. -/
def node_join (st : SessionState) : SessionState :=
  if st.current_join_retries < 120 then
    { st with current_join_retries := st.current_join_retries + 1 }
  else st

/-- First argument of `random_uint32_range` before conversion to `uint32_t`. -/
def backoff_lower_raw (n : Nat) : Int := 10000 + ((n : Int) - 1) * 30000

/-- Second argument of `random_uint32_range` before conversion to `uint32_t`. -/
def backoff_upper_raw (n : Nat) : Int := 30000 + ((n : Int) - 1) * 30000

/-- Lower bound of the backoff delay as received by `random_uint32_range`. -/
def backoff_lower (n : Nat) : Nat := u32 (backoff_lower_raw n)

/-- Upper bound of the backoff delay as received by `random_uint32_range`. -/
def backoff_upper (n : Nat) : Nat := u32 (backoff_upper_raw n)

/-- The two trailer stores of `unwds_callback` into a frame of `bytes` bytes:
position `bytes - 2` receives the temperature reading (converted to `int8_t`,
then to sign-and-magnitude) when its ADC line initialises, position `bytes - 1`
receives the supply reading divided by 50 when its ADC line initialises. -/
def write_trailer (adc : AdcEnv) (d : Nat → Nat) (bytes : Nat) : Nat → Nat :=
  let d1 : Nat → Nat :=
    if adc.temp_init = 0 then
      store d (bytes - 2) (u8 (adc.convert_to_be_sam (i8 adc.temp_sample)))
    else d
  if adc.vref_init = 0 then
    store d1 (bytes - 1) (u8 (Int.tdiv adc.vref_sample 50))
  else d1

/-- The part of `unwds_callback` after the frame size `bytes` has been chosen:
the length is set, the trailer is written, the frame is handed to
`semtech_loramac_send`, and a join request is posted when the send reports
not-joined while the join-retry counter is 0. -/
def unwds_callback_frame (st : SessionState) (adc : AdcEnv) (send_res : LoramacStatus)
    (buf : module_data_t) (bytes : Nat) : module_data_t × List Effect :=
  let buf2 : module_data_t :=
    { buf with length := bytes, data := write_trailer adc buf.data bytes }
  let sent : List Effect := [Effect.loramac_send (bytes_of buf2.data buf2.length)]
  match send_res with
  | LoramacStatus.NOT_JOINED =>
      if st.current_join_retries = 0 then (buf2, sent ++ [Effect.msg_join_sent])
      else (buf2, sent)
  | _ => (buf2, sent)

/-- The encoder `unwds_callback`. Returns the buffer as left behind and the
effects. -/
def unwds_callback (st : SessionState) (adc : AdcEnv) (send_res : LoramacStatus)
    (buf : module_data_t) : module_data_t × List Effect :=
  if buf.length < 15 then unwds_callback_frame st adc send_res buf 16
  else if buf.length < 31 then unwds_callback_frame st adc send_res buf 32
  else (buf, [])

/-- The local `cmd` of `appdata_received` once the payload's remainder has been
copied in: the members the function does not assign keep what the stack held. -/
def appdata_cmd (env : Env) (buf : List Nat) : module_data_t :=
  { env.stack_cmd with
    data := fun i => if i < buf.length - 1 then buf.getD (i + 1) 0 else env.stack_cmd.data i,
    length := buf.length - 1 }

/-- The router's result and the local `reply` of `appdata_received` as it stands
before the encoder is reached: zero-initialised, filled by the router, and
overwritten with the two-byte acknowledgment when the router reports
module-not-found. -/
def appdata_reply (k : UnwdsConsts) (env : Env) (buf : List Nat) : Int × module_data_t :=
  let modid : Nat := buf.getD 0 0
  let routed := env.unwds_send_to_module modid (appdata_cmd env buf) module_data_zero
  if routed.1 = k.UNWDS_MODULE_NOT_FOUND then
    (routed.1,
     { routed.2 with
       as_ack := true,
       length := 2,
       data := store (store routed.2.data 0 (u8 k.UNWDS_MODULE_NOT_FOUND)) 1 modid })
  else routed

/-- The downlink demultiplexer `appdata_received`. Returns the function's
`bool` result and the effects. -/
def appdata_received (k : UnwdsConsts) (env : Env) (st : SessionState)
    (buf : List Nat) : Bool × List Effect :=
  if buf.length < 2 then (true, [])
  else
    let r := appdata_reply k env buf
    let called : List Effect :=
      [Effect.router_call (buf.getD 0 0) (bytes_of (appdata_cmd env buf).data (buf.length - 1))]
    if r.1 ≠ k.UNWDS_MODULE_NO_DATA then
      (false, called ++ [Effect.encoder_call r.2.length]
                ++ (unwds_callback st env.adc env.send_res r.2).2)
    else (false, called)

/-- One iteration of the `while (1)` loop of `sender_thread`, after
`msg_receive` has returned `msg`. -/
def sender_thread (cfg : NodeSettings) (k : UnwdsConsts) (env : Env)
    (st : SessionState) (msg : msg_t) : SessionState × List Effect :=
  if msg.sender_pid ≠ env.loramac_pid then
    let st1 := node_join st
    match env.join_res with
    | LoramacStatus.JOIN_SUCCEEDED =>
        ({ st1 with current_join_retries := 0 }, [Effect.join_attempt])
    | LoramacStatus.RESTRICTED
    | LoramacStatus.BUSY
    | LoramacStatus.NOT_JOINED
    | LoramacStatus.JOIN_FAILED =>
        if st1.current_join_retries > cfg.max_retr ∧ cfg.nodeclass = NodeClass.LS_ED_CLASS_A then
          ({ st1 with current_join_retries := 0 }, [Effect.join_attempt])
        else
          let lower := backoff_lower st1.current_join_retries
          let upper := backoff_upper st1.current_join_retries
          (st1, [Effect.join_attempt,
                 Effect.retry_timer_set lower upper (env.random_uint32_range lower upper)])
    | _ => (st1, [Effect.join_attempt])
  else
    match msg.type with
    | LoramacMsgType.TX_DONE => (st, [])
    | LoramacMsgType.TX_CNF_FAILED =>
        let st1 := { st with uplinks_failed := (st.uplinks_failed + 1) % 256 }
        if st1.uplinks_failed > cfg.max_retr then
          ({ current_join_retries := 0, uplinks_failed := 0 }, [Effect.msg_join_sent])
        else (st1, [])
    | LoramacMsgType.RX =>
        if env.rx_payload.length = 0 ∧ env.rx_ack = true then (st, [])
        else (st, Effect.appdata_call env.rx_payload ::
                    (appdata_received k env st env.rx_payload).2)
    | LoramacMsgType.JOIN => (st, [])
    | LoramacMsgType.other _ => (st, [])

/-- The payloads handed to `semtech_loramac_send` among a list of effects. -/
def sent_frames : List Effect → List (List Nat)
  | [] => []
  | Effect.loramac_send p :: es => p :: sent_frames es
  | _ :: es => sent_frames es

/-- The payloads handed to `appdata_received` among a list of effects. -/
def appdata_calls : List Effect → List (List Nat)
  | [] => []
  | Effect.appdata_call p :: es => p :: appdata_calls es
  | _ :: es => appdata_calls es

/-- The invocations of `unwds_send_to_module` among a list of effects: the
module identifier and the command bytes. -/
def router_calls : List Effect → List (Nat × List Nat)
  | [] => []
  | Effect.router_call modid cmd :: es => (modid, cmd) :: router_calls es
  | _ :: es => router_calls es

/-- The invocations of `unwds_callback` by `appdata_received` among a list of
effects: the length of the reply handed over. -/
def encoder_calls : List Effect → List Nat
  | [] => []
  | Effect.encoder_call n :: es => n :: encoder_calls es
  | _ :: es => encoder_calls es

/-- The retry timers set among a list of effects: bounds and delay. -/
def retry_timers : List Effect → List (Nat × Nat × Nat)
  | [] => []
  | Effect.retry_timer_set lower upper delay :: es => (lower, upper, delay) :: retry_timers es
  | _ :: es => retry_timers es

/-- The loop of `sender_thread` over a sequence of received messages, each with
the answers of the surroundings while it is handled: the final counters and all
effects in order. -/
def sender_run (cfg : NodeSettings) (k : UnwdsConsts) :
    SessionState → List (Env × msg_t) → SessionState × List Effect
  | st, [] => (st, [])
  | st, x :: xs =>
      let r := sender_thread cfg k x.1 st x.2
      let rest := sender_run cfg k r.1 xs
      (rest.1, r.2 ++ rest.2)

/-! ## The usound module -/

/-- Constants of umdk-usound.h and unwds-common.h (both absent) that the module
uses: its identifier `_UMDK_MID_`, the two report modes and the three
sub-command codes. -/
structure UsoundConsts where
  UNWDS_USOUND_MODULE_ID : Nat
  UMDK_SOUND_MODE_DISTANCE : Nat
  UMDK_SOUND_MODE_THRESHOLD : Nat
  UMDK_USOUND_CMD_SET_PERIOD : Nat
  UMDK_USOUND_CMD_POLL : Nat
  UMDK_USOUND_CMD_INIT_SENSOR : Nat
  deriving DecidableEq, Repr

/-- The file-scope record `ultrasoundrange_config`. -/
structure ultrasoundrange_config_t where
  is_valid : Nat
  publish_period_min : Nat
  sensitivity : Nat
  min_distance : Nat
  max_distance : Nat
  threshold : Nat
  mode : Nat
  deriving DecidableEq, Repr

/-- The module's file-scope state: its configuration and the `is_polled` flag. -/
structure UsoundState where
  config : ultrasoundrange_config_t
  is_polled : Bool
  deriving DecidableEq, Repr

/-- Externally visible actions of the usound module. -/
inductive UsoundEffect where
  | publish (data : module_data_t)
  | timer_removed
  | timer_set (ms : Nat)
  | timer_24hrs_set (ms : Nat)
  | timer_msg_sent
  | nvram_write (config : ultrasoundrange_config_t)
  | sensor_init

/-- The report written by `prepare_result` for the measured `range`: the module
identifier followed by the four bytes of the `int`, least significant first. -/
def prepare_result (k : UsoundConsts) (buf : module_data_t) (range : Int) : module_data_t :=
  { buf with
    length := 1 + 4,
    data := fun i =>
      if i = 0 then u8 k.UNWDS_USOUND_MODULE_ID
      else if i < 1 + 4 then (u32 range / 256 ^ (i - 1)) % 256
      else buf.data i }

/-- The publish decision of `timer_thread`. -/
def report_wanted (k : UsoundConsts) (config : ultrasoundrange_config_t) (range : Int) : Bool :=
  decide (config.mode = k.UMDK_SOUND_MODE_DISTANCE) ||
    (decide (config.mode = k.UMDK_SOUND_MODE_THRESHOLD) &&
      decide (range < (config.threshold : Int)) && decide (range > 0))

/-- One iteration of the `while (1)` loop of `timer_thread`; `range` is what the
sensor measures in this cycle. -/
def timer_thread (k : UsoundConsts) (st : UsoundState) (range : Int) :
    UsoundState × List UsoundEffect :=
  let data0 : module_data_t := { module_data_zero with as_ack := st.is_polled }
  let st1 : UsoundState := { st with is_polled := false }
  let data := prepare_result k data0 range
  let published : List UsoundEffect :=
    if report_wanted k st1.config range then [UsoundEffect.publish data] else []
  let rearmed : List UsoundEffect :=
    if st1.config.publish_period_min ≠ 0 then
      [UsoundEffect.timer_set (60 * 1000 * st1.config.publish_period_min)]
    else []
  (st1, published ++ rearmed)

/-- The function `save_config`: stamp the validity byte, write the record. -/
def save_config (config : ultrasoundrange_config_t) :
    ultrasoundrange_config_t × List UsoundEffect :=
  let c := { config with is_valid := 1 }
  (c, [UsoundEffect.nvram_write c])

/-- The function `set_period`. -/
def set_period (config : ultrasoundrange_config_t) (period : Int) :
    ultrasoundrange_config_t × List UsoundEffect :=
  let saved := save_config { config with publish_period_min := u8 period }
  let rearmed : List UsoundEffect :=
    if saved.1.publish_period_min ≠ 0 then
      [UsoundEffect.timer_set (60 * 1000 * saved.1.publish_period_min)]
    else []
  (saved.1, [UsoundEffect.timer_removed] ++ saved.2 ++ rearmed)

/-- The function `reply_fail`. -/
def reply_fail (k : UsoundConsts) (reply : module_data_t) : module_data_t :=
  { reply with
    length := 2,
    data := store (store reply.data 0 (u8 k.UNWDS_USOUND_MODULE_ID)) 1 255 }

/-- The function `reply_ok`. -/
def reply_ok (k : UsoundConsts) (reply : module_data_t) : module_data_t :=
  { reply with
    length := 2,
    data := store (store reply.data 0 (u8 k.UNWDS_USOUND_MODULE_ID)) 1 0 }

/-- The command handler `umdk_usound_cmd`: its `bool` result, the reply buffer
as left behind, the module state and the effects. -/
def umdk_usound_cmd (k : UsoundConsts) (st : UsoundState) (cmd reply : module_data_t) :
    Bool × module_data_t × UsoundState × List UsoundEffect :=
  if cmd.length < 1 then (true, reply_fail k reply, st, [])
  else
    let c : Nat := cmd.data 0
    if c = k.UMDK_USOUND_CMD_SET_PERIOD then
      if cmd.length ≠ 2 then (true, reply_fail k reply, st, [])
      else
        let r := set_period st.config (cmd.data 1)
        (true, reply_ok k reply, { st with config := r.1 }, r.2)
    else if c = k.UMDK_USOUND_CMD_POLL then
      (false, reply, { st with is_polled := true }, [UsoundEffect.timer_msg_sent])
    else if c = k.UMDK_USOUND_CMD_INIT_SENSOR then
      (true, reply_ok k reply, st, [UsoundEffect.sensor_init])
    else (true, reply_fail k reply, st, [])

/-- One iteration of the `while (1)` loop of `timer_24hrs_thread`: the status
report is built from a zeroed record, published, and the 24 hours timer is set
again. Nothing of the module state is read or written. -/
def timer_24hrs_thread (k : UsoundConsts) (st : UsoundState) :
    UsoundState × List UsoundEffect :=
  let data : module_data_t :=
    { module_data_zero with
      as_ack := false,
      length := 5,
      data := fun i =>
        if 1 ≤ i ∧ i < 1 + 4 then 0
        else store module_data_zero.data 0 (u8 k.UNWDS_USOUND_MODULE_ID) i }
  (st, [UsoundEffect.publish data, UsoundEffect.timer_24hrs_set (1000 * 60 * 60 * 24)])

/-- The function `reset_config`: the factory defaults, then `save_config`. -/
def reset_config (k : UsoundConsts) (config : ultrasoundrange_config_t) :
    ultrasoundrange_config_t × List UsoundEffect :=
  save_config
    { config with
      publish_period_min := 15,
      sensitivity := 50,
      min_distance := 400,
      max_distance := 6000,
      threshold := 500,
      mode := u8 k.UMDK_SOUND_MODE_DISTANCE }

/-- The function `init_config`. `read_ok` is what `unwds_read_nvram_config`
returns and `loaded` is the record as that call leaves it. -/
def init_config (k : UsoundConsts) (read_ok : Bool) (loaded : ultrasoundrange_config_t) :
    ultrasoundrange_config_t × List UsoundEffect :=
  if read_ok = false then reset_config k loaded
  else if loaded.is_valid = 255 ∨ loaded.is_valid = 0 then reset_config k loaded
  else (loaded, [])

/-- The records written to the persistent store among a list of effects. -/
def nvram_writes : List UsoundEffect → List ultrasoundrange_config_t
  | [] => []
  | UsoundEffect.nvram_write c :: es => c :: nvram_writes es
  | _ :: es => nvram_writes es

/-- The delays with which the primary timer is set among a list of effects. -/
def timer_sets : List UsoundEffect → List Nat
  | [] => []
  | UsoundEffect.timer_set ms :: es => ms :: timer_sets es
  | _ :: es => timer_sets es

/-- The delays with which the 24 hours timer is set among a list of effects. -/
def timer_24hrs_sets : List UsoundEffect → List Nat
  | [] => []
  | UsoundEffect.timer_24hrs_set ms :: es => ms :: timer_24hrs_sets es
  | _ :: es => timer_24hrs_sets es

/-- The reports handed to the publish callback among a list of effects. -/
def published : List UsoundEffect → List module_data_t
  | [] => []
  | UsoundEffect.publish d :: es => d :: published es
  | _ :: es => published es

/-! ## The node as a whole: mailbox, retry timer, events -/

/-- The session counters together with what is on its way to the sender thread:
the number of `msg_join` messages posted and not yet received, and whether
`send_retry_timer` is armed. -/
structure World where
  session : SessionState
  pending_joins : Nat
  retry_timer : Bool
  deriving DecidableEq, Repr

/-- What can happen to the node.
* `join_command`: the shell command `join` (`ls_join_cmd`) or the `unwds_join`
  hook posts `msg_join`.
* `retry_timer_fired`: `send_retry_timer` expires and delivers `msg_join`.
* `module_report`: a module task publishes a report through `unwds_callback`.
* `loramac_msg`: the sender thread receives a message of the network stack.
* `join_msg_received`: the sender thread receives a pending `msg_join`. -/
inductive Event where
  | join_command
  | retry_timer_fired
  | module_report (adc : AdcEnv) (send_res : LoramacStatus) (buf : module_data_t)
  | loramac_msg (type : LoramacMsgType) (env : Env)
  | join_msg_received (env : Env)

/-- Number of `msg_send(&msg_join, sender_pid)` calls among a list of effects. -/
def count_join_sent : List Effect → Nat
  | [] => 0
  | Effect.msg_join_sent :: es => count_join_sent es + 1
  | _ :: es => count_join_sent es

/-- Whether a list of effects arms the retry timer. -/
def sets_retry_timer : List Effect → Bool
  | [] => false
  | Effect.retry_timer_set _ _ _ :: _ => true
  | _ :: es => sets_retry_timer es

/-- One event: the world afterwards and the effects of the code that ran. -/
def World.step (cfg : NodeSettings) (k : UnwdsConsts) (w : World) : Event → World × List Effect
  | Event.join_command =>
      ({ w with pending_joins := w.pending_joins + 1 }, [Effect.msg_join_sent])
  | Event.retry_timer_fired =>
      if w.retry_timer then
        ({ w with pending_joins := w.pending_joins + 1, retry_timer := false }, [])
      else (w, [])
  | Event.module_report adc send_res buf =>
      let es := (unwds_callback w.session adc send_res buf).2
      ({ w with pending_joins := w.pending_joins + count_join_sent es }, es)
  | Event.loramac_msg type env =>
      let r := sender_thread cfg k env w.session { sender_pid := env.loramac_pid, type := type }
      ({ w with session := r.1, pending_joins := w.pending_joins + count_join_sent r.2 }, r.2)
  | Event.join_msg_received env =>
      if w.pending_joins = 0 then (w, [])
      else
        let r := sender_thread cfg k env w.session
          { sender_pid := env.loramac_pid + 1, type := LoramacMsgType.other 0 }
        ({ session := r.1,
           pending_joins := w.pending_joins - 1 + count_join_sent r.2,
           retry_timer := w.retry_timer || sets_retry_timer r.2 }, r.2)

/-- A sequence of events: the final world and all effects in order. -/
def World.run (cfg : NodeSettings) (k : UnwdsConsts) : World → List Event → World × List Effect
  | w, [] => (w, [])
  | w, e :: es =>
      let r := World.step cfg k w e
      let rest := World.run cfg k r.1 es
      (rest.1, r.2 ++ rest.2)

/-- Events that ask for a join from outside the session manager: the explicit
join command, and a published report or a routed command reply whose send is
answered with not-joined. -/
def Event.asks_join : Event → Bool
  | Event.join_command => true
  | Event.retry_timer_fired => false
  | Event.module_report _ send_res _ => decide (send_res = LoramacStatus.NOT_JOINED)
  | Event.loramac_msg LoramacMsgType.RX env => decide (env.send_res = LoramacStatus.NOT_JOINED)
  | Event.loramac_msg _ _ => false
  | Event.join_msg_received _ => false

/-- Number of confirmed-uplink-failed messages in a sequence of events. -/
def cnf_failures : List Event → Nat
  | [] => 0
  | Event.loramac_msg LoramacMsgType.TX_CNF_FAILED _ :: es => cnf_failures es + 1
  | _ :: es => cnf_failures es

/-- Effects that are a join request message or a join attempt. -/
def Effect.is_join : Effect → Bool
  | Effect.join_attempt => true
  | Effect.msg_join_sent => true
  | _ => false

/-! ## Sample inputs used to instantiate the theorems -/

/-- A report of five content bytes from module 7. -/
def sample_report : module_data_t :=
  { length := 5, data := fun i => if i = 0 then 7 else 0, as_ack := false, rssi := 0 }

/-- A reply of 14 content bytes `1, 2, .., 14`, the rest of the buffer 0xAA. -/
def sample_reply14 : module_data_t :=
  { length := 14, data := fun i => if i < 14 then i + 1 else 170, as_ack := false, rssi := 0 }

/-- Diagnostic lines of which only the supply line initialises (reading 3000). -/
def sample_adc_no_temp : AdcEnv :=
  { temp_init := -1, temp_sample := 25, vref_init := 0, vref_sample := 3000,
    convert_to_be_sam := fun v => v }

/-- A router that knows no module: it reports `-1` and leaves the reply alone. -/
def sample_router : Nat → module_data_t → module_data_t → Int × module_data_t :=
  fun _ _ reply => (-1, reply)

/-- Diagnostic lines that both initialise; the temperature reads 25 and the
supply reads 3300; the sign-and-magnitude helper is the identity on these. -/
def sample_adc : AdcEnv :=
  { temp_init := 0, temp_sample := 25, vref_init := 0, vref_sample := 3300,
    convert_to_be_sam := fun v => v }

/-- Router codes used in the samples. -/
def sample_consts : UnwdsConsts :=
  { UNWDS_MODULE_NOT_FOUND := -1, UNWDS_MODULE_NO_DATA := 0, UNWDS_MAX_DATA_LEN := 64 }

/-- Surroundings in which the attach operation answers `res` and the send
operation answers `snd`; the random source returns its lower bound. -/
def sample_env (res snd : LoramacStatus) (payload : List Nat) : Env :=
  { loramac_pid := 3, join_res := res, random_uint32_range := fun a _ => a,
    rx_payload := payload, rx_ack := false, stack_cmd := module_data_zero,
    unwds_send_to_module := sample_router, adc := sample_adc, send_res := snd }

/-- The join request message: posted by a thread other than the network stack. -/
def sample_msg_join : msg_t := { sender_pid := 5, type := LoramacMsgType.other 0 }

/-- A message of the given type posted by the network stack of `sample_env`. -/
def sample_msg_loramac (t : LoramacMsgType) : msg_t := { sender_pid := 3, type := t }

/-- Constants of the usound module used in the samples. -/
def sample_usound : UsoundConsts :=
  { UNWDS_USOUND_MODULE_ID := 7, UMDK_SOUND_MODE_DISTANCE := 0, UMDK_SOUND_MODE_THRESHOLD := 1,
    UMDK_USOUND_CMD_SET_PERIOD := 0, UMDK_USOUND_CMD_POLL := 1, UMDK_USOUND_CMD_INIT_SENSOR := 2 }

/-- A usound state in threshold mode with the given threshold, period 15 min. -/
def sample_threshold_state (threshold : Nat) : UsoundState :=
  { config := { is_valid := 1, publish_period_min := 15, sensitivity := 50, min_distance := 400,
                max_distance := 6000, threshold := threshold, mode := 1 },
    is_polled := false }

/-- A command buffer holding the given bytes. -/
def sample_cmd (bytes : List Nat) : module_data_t :=
  { length := bytes.length, data := fun i => bytes.getD i 0, as_ack := false, rssi := 0 }

/-- A router that answers every command with result 1 and an empty reply. -/
def sample_router_empty_reply : Nat → module_data_t → module_data_t → Int × module_data_t :=
  fun _ _ reply => (1, reply)

/-- A router that answers every command with the no-data code of
`sample_consts`. -/
def sample_router_no_data : Nat → module_data_t → module_data_t → Int × module_data_t :=
  fun _ _ reply => (0, reply)

/-- Surroundings of a downlink with the given payload and router; every send
is answered with scheduled. -/
def sample_env_rx (router : Nat → module_data_t → module_data_t → Int × module_data_t)
    (payload : List Nat) (ack : Bool) : Env :=
  { loramac_pid := 3, join_res := LoramacStatus.JOIN_SUCCEEDED,
    random_uint32_range := fun a _ => a, rx_payload := payload, rx_ack := ack,
    stack_cmd := module_data_zero, unwds_send_to_module := router, adc := sample_adc,
    send_res := LoramacStatus.TX_SCHEDULED }

/-- The report of `sample_report` in a buffer that holds 0xEE at index 9, beyond
its five content bytes. -/
def sample_report_dirty : module_data_t :=
  { length := 5, data := fun i => if i = 0 then 7 else if i = 9 then 238 else 0,
    as_ack := false, rssi := 0 }

/-! ## Auxiliary facts -/

theorem u32_of_nonneg_lt (x : Int) (h0 : 0 ≤ x) (h1 : x < 4294967296) : (u32 x : Int) = x := by
  unfold u32
  rw [Int.emod_eq_of_lt h0 h1]
  exact Int.toNat_of_nonneg h0

theorem node_join_retries (st : SessionState) :
    (node_join st).current_join_retries =
      if st.current_join_retries < 120 then st.current_join_retries + 1
      else st.current_join_retries := by
  unfold node_join
  split <;> rfl

theorem node_join_uplinks (st : SessionState) :
    (node_join st).uplinks_failed = st.uplinks_failed := by
  unfold node_join
  split <;> rfl

/-! ## Session manager: join failure, uplink failure, backoff -/

/-- C1. A join attempt that fails with a recoverable status while the counter,
after the increment of `node_join`, exceeds `max_retr`: a class-A node resets
the counter to 0 and sets no retry timer (the only effect is the attempt
itself); a class-C node keeps the counter and sets the retry timer. -/
theorem C1_join_failure_class_a_stops_class_c_retries
    (cfg : NodeSettings) (k : UnwdsConsts) (env : Env) (st : SessionState) (msg : msg_t)
    (hmsg : msg.sender_pid ≠ env.loramac_pid)
    (hres : env.join_res = LoramacStatus.RESTRICTED ∨ env.join_res = LoramacStatus.BUSY ∨
      env.join_res = LoramacStatus.NOT_JOINED ∨ env.join_res = LoramacStatus.JOIN_FAILED)
    (hexc : (node_join st).current_join_retries > cfg.max_retr) :
    (cfg.nodeclass = NodeClass.LS_ED_CLASS_A →
      (sender_thread cfg k env st msg).1.current_join_retries = 0 ∧
      (sender_thread cfg k env st msg).2 = [Effect.join_attempt]) ∧
    (cfg.nodeclass = NodeClass.LS_ED_CLASS_C →
      (sender_thread cfg k env st msg).1 = node_join st ∧
      (sender_thread cfg k env st msg).2 =
        [Effect.join_attempt,
         Effect.retry_timer_set
           (backoff_lower (node_join st).current_join_retries)
           (backoff_upper (node_join st).current_join_retries)
           (env.random_uint32_range
             (backoff_lower (node_join st).current_join_retries)
             (backoff_upper (node_join st).current_join_retries))]) := by
  constructor
  · intro hA
    have hcond : (node_join st).current_join_retries > cfg.max_retr ∧
        cfg.nodeclass = NodeClass.LS_ED_CLASS_A := ⟨hexc, hA⟩
    rcases hres with h | h | h | h <;>
      simp [sender_thread, hmsg, h, hcond]
  · intro hC
    have hcond : ¬ ((node_join st).current_join_retries > cfg.max_retr ∧
        cfg.nodeclass = NodeClass.LS_ED_CLASS_A) := by
      rw [hC]
      intro h
      exact absurd h.2 (by decide)
    rcases hres with h | h | h | h <;>
      simp only [sender_thread, hmsg, h, hcond, ne_eq, not_false_eq_true, if_true, if_false,
        and_self]

/-- C1 at a concrete input: `max_retr = 2`, the counter stands at 2 and the
third attempt fails; class A ends with counter 0 and no timer, class C ends with
counter 3 and a timer between 70 s and 90 s. -/
theorem C1_join_failure_witness :
    ((sender_thread ⟨2, NodeClass.LS_ED_CLASS_A⟩ sample_consts
        (sample_env LoramacStatus.JOIN_FAILED LoramacStatus.TX_SCHEDULED []) ⟨2, 0⟩
        sample_msg_join).1.current_join_retries = 0 ∧
     (sender_thread ⟨2, NodeClass.LS_ED_CLASS_A⟩ sample_consts
        (sample_env LoramacStatus.JOIN_FAILED LoramacStatus.TX_SCHEDULED []) ⟨2, 0⟩
        sample_msg_join).2 = [Effect.join_attempt]) ∧
    ((sender_thread ⟨2, NodeClass.LS_ED_CLASS_C⟩ sample_consts
        (sample_env LoramacStatus.JOIN_FAILED LoramacStatus.TX_SCHEDULED []) ⟨2, 0⟩
        sample_msg_join).1 = ⟨3, 0⟩ ∧
     (sender_thread ⟨2, NodeClass.LS_ED_CLASS_C⟩ sample_consts
        (sample_env LoramacStatus.JOIN_FAILED LoramacStatus.TX_SCHEDULED []) ⟨2, 0⟩
        sample_msg_join).2 = [Effect.join_attempt, Effect.retry_timer_set 70000 90000 70000]) :=
  ⟨(C1_join_failure_class_a_stops_class_c_retries ⟨2, NodeClass.LS_ED_CLASS_A⟩ sample_consts
      (sample_env LoramacStatus.JOIN_FAILED LoramacStatus.TX_SCHEDULED []) ⟨2, 0⟩
      sample_msg_join (by decide) (Or.inr (Or.inr (Or.inr rfl))) (by decide)).1 rfl,
   (C1_join_failure_class_a_stops_class_c_retries ⟨2, NodeClass.LS_ED_CLASS_C⟩ sample_consts
      (sample_env LoramacStatus.JOIN_FAILED LoramacStatus.TX_SCHEDULED []) ⟨2, 0⟩
      sample_msg_join (by decide) (Or.inr (Or.inr (Or.inr rfl))) (by decide)).2 rfl⟩

theorem sender_thread_uplinks_le (cfg : NodeSettings) (k : UnwdsConsts) (env : Env)
    (st : SessionState) (msg : msg_t) (h : st.uplinks_failed ≤ cfg.max_retr) :
    (sender_thread cfg k env st msg).1.uplinks_failed ≤ cfg.max_retr := by
  have hj : (node_join st).uplinks_failed ≤ cfg.max_retr := by
    rw [node_join_uplinks]; exact h
  by_cases hmsg : msg.sender_pid = env.loramac_pid
  · unfold sender_thread
    simp only [hmsg, ne_eq, not_true_eq_false, if_false]
    cases msg.type with
    | TX_DONE => exact h
    | TX_CNF_FAILED =>
      by_cases hc : (st.uplinks_failed + 1) % 256 > cfg.max_retr
      · simp only [hc, if_true]
        exact Nat.zero_le _
      · simp only [hc, if_false]
        exact Nat.le_of_not_gt hc
    | RX =>
      by_cases hb : env.rx_payload.length = 0 ∧ env.rx_ack = true
      · simp only [hb, and_self, if_true]
        exact h
      · simp only [hb, if_false]
        exact h
    | JOIN => exact h
    | other t => exact h
  · have hfail : ∀ r : SessionState × List Effect,
        r = (if (node_join st).current_join_retries > cfg.max_retr ∧
              cfg.nodeclass = NodeClass.LS_ED_CLASS_A then
            ({ node_join st with current_join_retries := 0 }, [Effect.join_attempt])
          else
            (node_join st,
             [Effect.join_attempt,
              Effect.retry_timer_set (backoff_lower (node_join st).current_join_retries)
                (backoff_upper (node_join st).current_join_retries)
                (env.random_uint32_range (backoff_lower (node_join st).current_join_retries)
                  (backoff_upper (node_join st).current_join_retries))])) →
        r.1.uplinks_failed ≤ cfg.max_retr := by
      intro r hr
      by_cases hc : (node_join st).current_join_retries > cfg.max_retr ∧
          cfg.nodeclass = NodeClass.LS_ED_CLASS_A
      · rw [if_pos hc] at hr
        rw [hr]
        exact hj
      · rw [if_neg hc] at hr
        rw [hr]
        exact hj
    unfold sender_thread
    simp only [hmsg, ne_eq, not_false_eq_true, if_true]
    cases env.join_res with
    | JOIN_SUCCEEDED => exact hj
    | RESTRICTED => exact hfail _ rfl
    | BUSY => exact hfail _ rfl
    | NOT_JOINED => exact hfail _ rfl
    | JOIN_FAILED => exact hfail _ rfl
    | TX_SCHEDULED => exact hj
    | other c => exact hj

theorem sender_run_uplinks_le (cfg : NodeSettings) (k : UnwdsConsts)
    (inputs : List (Env × msg_t)) :
    ∀ st : SessionState, st.uplinks_failed ≤ cfg.max_retr →
      (sender_run cfg k st inputs).1.uplinks_failed ≤ cfg.max_retr := by
  induction inputs with
  | nil => intro st h; exact h
  | cons x xs ih =>
    intro st h
    exact ih _ (sender_thread_uplinks_le cfg k x.1 st x.2 h)

/-- C2. A confirmed-uplink-failed event, for every `max_retr` and every prior
value of the two counters: the uplink-failure counter is incremented (the
`uint8_t` increment, which is plus one for every prior value below 255); if the
new value exceeds `max_retr`, both counters become 0 and exactly one join
request message is sent, with no other trigger; otherwise nothing is sent, the
join-retry counter is unchanged and the uplink-failure counter holds the new
value. In every state the session manager reaches from both counters 0, with
`max_retr` below 255, the prior value is at most `max_retr`, so the increment is
exactly plus one and exceeding `max_retr` means having reached `max_retr + 1`. -/
theorem C2_uplink_failure_counts_and_rejoins
    (cfg : NodeSettings) (k : UnwdsConsts) (env : Env) (st : SessionState) (msg : msg_t)
    (hmsg : msg.sender_pid = env.loramac_pid)
    (htype : msg.type = LoramacMsgType.TX_CNF_FAILED) :
    ((st.uplinks_failed + 1) % 256 > cfg.max_retr →
      sender_thread cfg k env st msg = (⟨0, 0⟩, [Effect.msg_join_sent])) ∧
    (¬ (st.uplinks_failed + 1) % 256 > cfg.max_retr →
      sender_thread cfg k env st msg =
        (⟨st.current_join_retries, (st.uplinks_failed + 1) % 256⟩, [])) ∧
    (st.uplinks_failed < 255 → (st.uplinks_failed + 1) % 256 = st.uplinks_failed + 1) ∧
    (st.uplinks_failed < 255 →
      (st.uplinks_failed + 1 > cfg.max_retr →
        sender_thread cfg k env st msg = (⟨0, 0⟩, [Effect.msg_join_sent])) ∧
      (¬ st.uplinks_failed + 1 > cfg.max_retr →
        sender_thread cfg k env st msg =
          (⟨st.current_join_retries, st.uplinks_failed + 1⟩, []))) ∧
    (st.uplinks_failed ≤ cfg.max_retr →
      (st.uplinks_failed + 1 > cfg.max_retr ↔ st.uplinks_failed + 1 = cfg.max_retr + 1)) ∧
    (cfg.max_retr < 255 →
      (∃ inputs : List (Env × msg_t), st = (sender_run cfg k ⟨0, 0⟩ inputs).1) →
      st.uplinks_failed ≤ cfg.max_retr ∧ st.uplinks_failed < 255 ∧
      (st.uplinks_failed + 1 > cfg.max_retr →
        st.uplinks_failed + 1 = cfg.max_retr + 1 ∧
        sender_thread cfg k env st msg = (⟨0, 0⟩, [Effect.msg_join_sent])) ∧
      (¬ st.uplinks_failed + 1 > cfg.max_retr →
        sender_thread cfg k env st msg =
          (⟨st.current_join_retries, st.uplinks_failed + 1⟩, []))) := by
  have hyes : (st.uplinks_failed + 1) % 256 > cfg.max_retr →
      sender_thread cfg k env st msg = (⟨0, 0⟩, [Effect.msg_join_sent]) := by
    intro h
    simp [sender_thread, hmsg, htype, h]
  have hno : ¬ (st.uplinks_failed + 1) % 256 > cfg.max_retr →
      sender_thread cfg k env st msg =
        (⟨st.current_join_retries, (st.uplinks_failed + 1) % 256⟩, []) := by
    intro h
    simp [sender_thread, hmsg, htype, h]
  have hmod : st.uplinks_failed < 255 →
      (st.uplinks_failed + 1) % 256 = st.uplinks_failed + 1 := by
    intro h
    exact Nat.mod_eq_of_lt (by omega)
  have hlit : st.uplinks_failed < 255 →
      (st.uplinks_failed + 1 > cfg.max_retr →
        sender_thread cfg k env st msg = (⟨0, 0⟩, [Effect.msg_join_sent])) ∧
      (¬ st.uplinks_failed + 1 > cfg.max_retr →
        sender_thread cfg k env st msg =
          (⟨st.current_join_retries, st.uplinks_failed + 1⟩, [])) := by
    intro h
    have hm := hmod h
    rw [hm] at hyes hno
    exact ⟨hyes, hno⟩
  refine ⟨hyes, hno, hmod, hlit, ?_, ?_⟩
  · intro h
    omega
  · intro hmax hreach
    rcases hreach with ⟨inputs, hst⟩
    have hle : st.uplinks_failed ≤ cfg.max_retr := by
      rw [hst]
      exact sender_run_uplinks_le cfg k inputs ⟨0, 0⟩ (Nat.zero_le _)
    have hlt : st.uplinks_failed < 255 := by omega
    refine ⟨hle, hlt, ?_, (hlit hlt).2⟩
    intro h
    exact ⟨by omega, (hlit hlt).1 h⟩

/-- C2 at concrete inputs with `max_retr = 2`: two confirmed-uplink failures
from the initial state leave the counters at 0 and 2 with nothing sent; in that
state the third failure resets both counters and sends the join request. -/
theorem C2_uplink_failure_witness :
    sender_run ⟨2, NodeClass.LS_ED_CLASS_A⟩ sample_consts ⟨0, 0⟩
        [(sample_env LoramacStatus.JOIN_SUCCEEDED LoramacStatus.TX_SCHEDULED [],
          sample_msg_loramac LoramacMsgType.TX_CNF_FAILED),
         (sample_env LoramacStatus.JOIN_SUCCEEDED LoramacStatus.TX_SCHEDULED [],
          sample_msg_loramac LoramacMsgType.TX_CNF_FAILED)] = (⟨0, 2⟩, []) ∧
    sender_thread ⟨2, NodeClass.LS_ED_CLASS_A⟩ sample_consts
        (sample_env LoramacStatus.JOIN_SUCCEEDED LoramacStatus.TX_SCHEDULED []) ⟨0, 2⟩
        (sample_msg_loramac LoramacMsgType.TX_CNF_FAILED) = (⟨0, 0⟩, [Effect.msg_join_sent]) ∧
    sender_thread ⟨2, NodeClass.LS_ED_CLASS_A⟩ sample_consts
        (sample_env LoramacStatus.JOIN_SUCCEEDED LoramacStatus.TX_SCHEDULED []) ⟨4, 1⟩
        (sample_msg_loramac LoramacMsgType.TX_CNF_FAILED) = (⟨4, 2⟩, []) :=
  ⟨by decide,
   (((C2_uplink_failure_counts_and_rejoins ⟨2, NodeClass.LS_ED_CLASS_A⟩ sample_consts
      (sample_env LoramacStatus.JOIN_SUCCEEDED LoramacStatus.TX_SCHEDULED []) ⟨0, 2⟩
      (sample_msg_loramac LoramacMsgType.TX_CNF_FAILED) rfl rfl).2.2.2.2.2 (by decide)
      ⟨[(sample_env LoramacStatus.JOIN_SUCCEEDED LoramacStatus.TX_SCHEDULED [],
          sample_msg_loramac LoramacMsgType.TX_CNF_FAILED),
         (sample_env LoramacStatus.JOIN_SUCCEEDED LoramacStatus.TX_SCHEDULED [],
          sample_msg_loramac LoramacMsgType.TX_CNF_FAILED)], by decide⟩).2.2.1
      (by decide)).2,
   ((C2_uplink_failure_counts_and_rejoins ⟨2, NodeClass.LS_ED_CLASS_A⟩ sample_consts
      (sample_env LoramacStatus.JOIN_SUCCEEDED LoramacStatus.TX_SCHEDULED []) ⟨4, 1⟩
      (sample_msg_loramac LoramacMsgType.TX_CNF_FAILED) rfl rfl).2.2.2.1 (by decide)).2
      (by decide)⟩

/-- C3. For every post-increment join-retry count `n` in [1,120] the bounds
handed to the random delay are `10000 + (n-1)*30000` and `30000 + (n-1)*30000`
milliseconds; the C `int` expressions stay inside [0, 2^31) so neither the `int`
arithmetic nor the conversion to `uint32_t` wraps, also at `n + 1`; both bounds
are non-decreasing from `n` to `n + 1`; the lower bound is below the upper
bound; and these are the bounds `sender_thread` passes on a retry. -/
theorem C3_backoff_bounds_monotone_no_wrap (n : Nat) (h1 : 1 ≤ n) (h120 : n ≤ 120) :
    backoff_lower n = 10000 + (n - 1) * 30000 ∧
    backoff_upper n = 30000 + (n - 1) * 30000 ∧
    (0 ≤ backoff_lower_raw n ∧ backoff_upper_raw (n + 1) < 2147483648) ∧
    ((backoff_lower (n + 1) : Int) = backoff_lower_raw (n + 1) ∧
      (backoff_upper (n + 1) : Int) = backoff_upper_raw (n + 1)) ∧
    backoff_lower n ≤ backoff_lower (n + 1) ∧
    backoff_upper n ≤ backoff_upper (n + 1) ∧
    backoff_lower n < backoff_upper n ∧
    (∀ (cfg : NodeSettings) (k : UnwdsConsts) (env : Env) (st : SessionState) (msg : msg_t),
      msg.sender_pid ≠ env.loramac_pid →
      (env.join_res = LoramacStatus.RESTRICTED ∨ env.join_res = LoramacStatus.BUSY ∨
        env.join_res = LoramacStatus.NOT_JOINED ∨ env.join_res = LoramacStatus.JOIN_FAILED) →
      (node_join st).current_join_retries = n →
      ¬ (n > cfg.max_retr ∧ cfg.nodeclass = NodeClass.LS_ED_CLASS_A) →
      (sender_thread cfg k env st msg).2 =
        [Effect.join_attempt,
         Effect.retry_timer_set (10000 + (n - 1) * 30000) (30000 + (n - 1) * 30000)
           (env.random_uint32_range (10000 + (n - 1) * 30000) (30000 + (n - 1) * 30000))]) := by
  have hl : ∀ m : Nat, 1 ≤ m → m ≤ 121 → (backoff_lower m : Int) = backoff_lower_raw m := by
    intro m hm1 hm2
    apply u32_of_nonneg_lt <;> (unfold backoff_lower_raw; omega)
  have hu : ∀ m : Nat, 1 ≤ m → m ≤ 121 → (backoff_upper m : Int) = backoff_upper_raw m := by
    intro m hm1 hm2
    apply u32_of_nonneg_lt <;> (unfold backoff_upper_raw; omega)
  have hln := hl n h1 (by omega)
  have hun := hu n h1 (by omega)
  have hls := hl (n + 1) (by omega) (by omega)
  have hus := hu (n + 1) (by omega) (by omega)
  have el : backoff_lower n = 10000 + (n - 1) * 30000 := by
    unfold backoff_lower_raw at hln; omega
  have eu : backoff_upper n = 30000 + (n - 1) * 30000 := by
    unfold backoff_upper_raw at hun; omega
  refine ⟨el, eu, ⟨?_, ?_⟩, ⟨hls, hus⟩, ?_, ?_, ?_, ?_⟩
  · unfold backoff_lower_raw; omega
  · unfold backoff_upper_raw; omega
  · unfold backoff_lower_raw at hln hls; omega
  · unfold backoff_upper_raw at hun hus; omega
  · omega
  · intro cfg k env st msg hmsg hres hn hcond
    rw [← el, ← eu]
    rcases hres with h | h | h | h <;>
      simp only [sender_thread, hmsg, h, hn, hcond, ne_eq, not_false_eq_true, if_true, if_false]

/-- C3 at `n = 120`, the saturated count: the bounds are 3580000 and 3600000 ms
and the next step up does not lower them. -/
theorem C3_backoff_bounds_witness :
    backoff_lower 120 = 3580000 ∧ backoff_upper 120 = 3600000 ∧
    backoff_lower 120 ≤ backoff_lower 121 ∧ backoff_lower 120 < backoff_upper 120 :=
  have h := C3_backoff_bounds_monotone_no_wrap 120 (by decide) (by decide)
  ⟨h.1, h.2.1, h.2.2.2.2.1, h.2.2.2.2.2.2.1⟩

/-! ## The encoder -/

theorem bytes_of_length (d : Nat → Nat) (n : Nat) : (bytes_of d n).length = n := by
  simp [bytes_of]

theorem bytes_of_getElem? (d : Nat → Nat) (n i : Nat) (h : i < n) :
    (bytes_of d n)[i]? = some (d i) := by
  simp [bytes_of, List.getElem?_map, List.getElem?_range h]

theorem unwds_callback_frame_sent (st : SessionState) (adc : AdcEnv)
    (send_res : LoramacStatus) (buf : module_data_t) (bytes : Nat) :
    sent_frames (unwds_callback_frame st adc send_res buf bytes).2 =
      [bytes_of (write_trailer adc buf.data bytes) bytes] := by
  unfold unwds_callback_frame
  cases send_res <;> simp [sent_frames]
  split <;> simp [sent_frames]

theorem write_trailer_content (adc : AdcEnv) (d : Nat → Nat) (bytes i : Nat)
    (hi : i < bytes - 2) :
    write_trailer adc d bytes i = d i := by
  have h1 : i ≠ bytes - 2 := by omega
  have h2 : i ≠ bytes - 1 := by omega
  unfold write_trailer store
  split <;> split <;> simp [h1, h2]

theorem write_trailer_temp (adc : AdcEnv) (d : Nat → Nat) (bytes : Nat) (h : 2 ≤ bytes) :
    write_trailer adc d bytes (bytes - 2) =
      if adc.temp_init = 0 then u8 (adc.convert_to_be_sam (i8 adc.temp_sample))
      else d (bytes - 2) := by
  have h1 : bytes - 2 ≠ bytes - 1 := by omega
  unfold write_trailer store
  split <;> split <;> simp [h1]

theorem write_trailer_vref (adc : AdcEnv) (d : Nat → Nat) (bytes : Nat) (h : 2 ≤ bytes) :
    write_trailer adc d bytes (bytes - 1) =
      if adc.vref_init = 0 then u8 (Int.tdiv adc.vref_sample 50)
      else d (bytes - 1) := by
  have h1 : bytes - 1 ≠ bytes - 2 := by omega
  unfold write_trailer store
  split <;> split <;> simp [h1]

/-- C4. The encoder's outcome depends on the content length `L` alone: below 15
exactly one frame is sent and it has 16 bytes; from 15 to 30 exactly one frame
is sent and it has 32 bytes; from 31 on the reply is rejected, nothing is sent
(there is no effect at all) and the buffer is left as it was. -/
theorem C4_frame_size_by_content_length (st : SessionState) (adc : AdcEnv)
    (send_res : LoramacStatus) (buf : module_data_t) :
    (buf.length < 15 →
      ∃ p, sent_frames (unwds_callback st adc send_res buf).2 = [p] ∧ p.length = 16) ∧
    (15 ≤ buf.length ∧ buf.length < 31 →
      ∃ p, sent_frames (unwds_callback st adc send_res buf).2 = [p] ∧ p.length = 32) ∧
    (31 ≤ buf.length →
      (unwds_callback st adc send_res buf).2 = [] ∧
      sent_frames (unwds_callback st adc send_res buf).2 = []) := by
  refine ⟨?_, ?_, ?_⟩
  · intro h
    refine ⟨_, ?_, bytes_of_length (write_trailer adc buf.data 16) 16⟩
    simp only [unwds_callback, h, if_true]
    exact unwds_callback_frame_sent st adc send_res buf 16
  · intro h
    have h15 : ¬ buf.length < 15 := by omega
    refine ⟨_, ?_, bytes_of_length (write_trailer adc buf.data 32) 32⟩
    simp only [unwds_callback, h15, h.2, if_true, if_false]
    exact unwds_callback_frame_sent st adc send_res buf 32
  · intro h
    have h15 : ¬ buf.length < 15 := by omega
    have h31 : ¬ buf.length < 31 := by omega
    simp [unwds_callback, h15, h31, sent_frames]

/-! ## The downlink demultiplexer -/

/-- C5. A downlink payload of length at least 2 whose first byte names a module
the router reports as not found (the not-found code being distinct from the
no-data code): whatever the router left in the reply, the reply handed to the
encoder is flagged as an acknowledgment, has length 2, its first byte is the
not-found code as a byte and its second byte is the requested identifier; and
the encoder is run on exactly that reply. -/
theorem C5_module_not_found_reply (k : UnwdsConsts) (env : Env) (st : SessionState)
    (buf : List Nat)
    (hlen : 2 ≤ buf.length)
    (hnf : (env.unwds_send_to_module (buf.getD 0 0) (appdata_cmd env buf) module_data_zero).1 =
      k.UNWDS_MODULE_NOT_FOUND)
    (hdist : k.UNWDS_MODULE_NOT_FOUND ≠ k.UNWDS_MODULE_NO_DATA) :
    (appdata_reply k env buf).2.as_ack = true ∧
    (appdata_reply k env buf).2.length = 2 ∧
    (appdata_reply k env buf).2.data 0 = u8 k.UNWDS_MODULE_NOT_FOUND ∧
    (0 ≤ k.UNWDS_MODULE_NOT_FOUND ∧ k.UNWDS_MODULE_NOT_FOUND < 256 →
      ((appdata_reply k env buf).2.data 0 : Int) = k.UNWDS_MODULE_NOT_FOUND) ∧
    (appdata_reply k env buf).2.data 1 = buf.getD 0 0 ∧
    (appdata_received k env st buf).2 =
      [Effect.router_call (buf.getD 0 0) (bytes_of (appdata_cmd env buf).data (buf.length - 1)),
       Effect.encoder_call 2] ++
        (unwds_callback st env.adc env.send_res (appdata_reply k env buf).2).2 := by
  have hr : appdata_reply k env buf =
      (k.UNWDS_MODULE_NOT_FOUND,
       { (env.unwds_send_to_module (buf.getD 0 0) (appdata_cmd env buf) module_data_zero).2 with
         as_ack := true,
         length := 2,
         data := store (store
           (env.unwds_send_to_module (buf.getD 0 0) (appdata_cmd env buf)
             module_data_zero).2.data 0 (u8 k.UNWDS_MODULE_NOT_FOUND)) 1 (buf.getD 0 0) }) := by
    simp only [appdata_reply, hnf, if_true]
  have hlen2 : ¬ buf.length < 2 := by omega
  refine ⟨?_, ?_, ?_, ?_, ?_, ?_⟩
  · rw [hr]
  · rw [hr]
  · rw [hr]; simp [store]
  · intro hb
    rw [hr]
    simp only [store]
    simp only [zero_ne_one, if_false, if_true]
    unfold u8
    rw [Int.emod_eq_of_lt hb.1 hb.2]
    exact Int.toNat_of_nonneg hb.1
  · rw [hr]; simp [store]
  · simp only [appdata_received, hlen2, if_false]
    rw [hr]
    simp [hdist]

/-- C5 at a concrete input: the payload `[9, 1, 2]` addressed to module 9, a
router that reports not-found (code -1, stored as 0xFF), the no-data code 0. -/
theorem C5_module_not_found_witness :
    (appdata_reply sample_consts
      (sample_env LoramacStatus.JOIN_SUCCEEDED LoramacStatus.TX_SCHEDULED [9, 1, 2])
      [9, 1, 2]).2.as_ack = true ∧
    (appdata_reply sample_consts
      (sample_env LoramacStatus.JOIN_SUCCEEDED LoramacStatus.TX_SCHEDULED [9, 1, 2])
      [9, 1, 2]).2.length = 2 ∧
    (appdata_reply sample_consts
      (sample_env LoramacStatus.JOIN_SUCCEEDED LoramacStatus.TX_SCHEDULED [9, 1, 2])
      [9, 1, 2]).2.data 0 = 255 ∧
    (appdata_reply sample_consts
      (sample_env LoramacStatus.JOIN_SUCCEEDED LoramacStatus.TX_SCHEDULED [9, 1, 2])
      [9, 1, 2]).2.data 1 = 9 :=
  have h := C5_module_not_found_reply sample_consts
    (sample_env LoramacStatus.JOIN_SUCCEEDED LoramacStatus.TX_SCHEDULED [9, 1, 2]) ⟨0, 0⟩
    [9, 1, 2] (by decide) rfl (by decide)
  ⟨h.1, h.2.1, h.2.2.1, h.2.2.2.2.1⟩

/-! ## The usound module -/

theorem published_timer_thread (k : UsoundConsts) (st : UsoundState) (r : Int) :
    published (timer_thread k st r).2 =
      if report_wanted k st.config r then
        [prepare_result k { module_data_zero with as_ack := st.is_polled } r]
      else [] := by
  unfold timer_thread
  by_cases hw : report_wanted k st.config r = true <;>
    by_cases hp : st.config.publish_period_min = 0 <;>
    simp [hw, hp, published]

/-- C6. One cycle of the primary periodic task, with measured range `r` and
configured threshold `t` (the two mode constants being distinct): in distance
mode the report is published; in threshold mode it is published exactly when
`0 < r` and `r < t`, otherwise nothing is published; in particular an `r` that
is not positive is suppressed for every threshold. -/
theorem C6_report_policy (k : UsoundConsts) (st : UsoundState) (r : Int)
    (hmodes : k.UMDK_SOUND_MODE_DISTANCE ≠ k.UMDK_SOUND_MODE_THRESHOLD) :
    (st.config.mode = k.UMDK_SOUND_MODE_DISTANCE →
      published (timer_thread k st r).2 =
        [prepare_result k { module_data_zero with as_ack := st.is_polled } r]) ∧
    (st.config.mode = k.UMDK_SOUND_MODE_THRESHOLD →
      (0 < r ∧ r < (st.config.threshold : Int) →
        published (timer_thread k st r).2 =
          [prepare_result k { module_data_zero with as_ack := st.is_polled } r]) ∧
      (¬ (0 < r ∧ r < (st.config.threshold : Int)) → published (timer_thread k st r).2 = []) ∧
      (published (timer_thread k st r).2 ≠ [] ↔ 0 < r ∧ r < (st.config.threshold : Int)) ∧
      (r ≤ 0 → published (timer_thread k st r).2 = [])) := by
  rw [published_timer_thread]
  constructor
  · intro hm
    simp [report_wanted, hm]
  · intro hm
    have hne : ¬ k.UMDK_SOUND_MODE_THRESHOLD = k.UMDK_SOUND_MODE_DISTANCE := fun h => hmodes h.symm
    have hw : report_wanted k st.config r = true ↔ (0 < r ∧ r < (st.config.threshold : Int)) := by
      simp [report_wanted, hm, hne]
      exact And.comm
    refine ⟨?_, ?_, ?_, ?_⟩
    · intro h
      simp [hw.2 h]
    · intro h
      have : ¬ report_wanted k st.config r = true := fun h2 => h (hw.1 h2)
      simp [this]
    · by_cases h : report_wanted k st.config r = true
      · simp [h, hw.1 h]
      · have h3 : ¬ (0 < r ∧ r < (st.config.threshold : Int)) := fun h2 => h (hw.2 h2)
        simp [h, h3]
    · intro h
      have : ¬ report_wanted k st.config r = true := fun h2 => by
        have := (hw.1 h2).1
        omega
      simp [this]

/-- C6 at the three readings of the scenario, threshold mode with threshold
500: 450 is published, 600 and -1 are suppressed. -/
theorem C6_report_policy_witness :
    published (timer_thread sample_usound (sample_threshold_state 500) 450).2 =
      [prepare_result sample_usound { module_data_zero with as_ack := false } 450] ∧
    published (timer_thread sample_usound (sample_threshold_state 500) 600).2 = [] ∧
    published (timer_thread sample_usound (sample_threshold_state 500) (-1)).2 = [] :=
  ⟨((C6_report_policy sample_usound (sample_threshold_state 500) 450 (by decide)).2 rfl).1
      (by decide),
   ((C6_report_policy sample_usound (sample_threshold_state 500) 600 (by decide)).2 rfl).2.1
      (by decide),
   ((C6_report_policy sample_usound (sample_threshold_state 500) (-1) (by decide)).2
      rfl).2.2.2 (by decide)⟩

/-- C7. The command handler has three outcomes (the three sub-command codes
being distinct). A non-empty command whose first byte is the poll code returns
`false` (no reply) and leaves the reply buffer untouched. Every other command
returns `true` with a reply of length 2 whose first byte is the module
identifier and whose second byte is 0 or 255: 0 for set-period with command
length 2 and for re-initialize-sensor, 255 for the empty command, for set-period
with any other length and for every other first byte. -/
theorem C7_command_outcomes (k : UsoundConsts) (st : UsoundState) (cmd reply : module_data_t)
    (h1 : k.UMDK_USOUND_CMD_SET_PERIOD ≠ k.UMDK_USOUND_CMD_POLL)
    (h2 : k.UMDK_USOUND_CMD_SET_PERIOD ≠ k.UMDK_USOUND_CMD_INIT_SENSOR)
    (h3 : k.UMDK_USOUND_CMD_POLL ≠ k.UMDK_USOUND_CMD_INIT_SENSOR) :
    (1 ≤ cmd.length ∧ cmd.data 0 = k.UMDK_USOUND_CMD_POLL →
      (umdk_usound_cmd k st cmd reply).1 = false ∧
      (umdk_usound_cmd k st cmd reply).2.1 = reply) ∧
    (¬ (1 ≤ cmd.length ∧ cmd.data 0 = k.UMDK_USOUND_CMD_POLL) →
      (umdk_usound_cmd k st cmd reply).1 = true ∧
      (umdk_usound_cmd k st cmd reply).2.1.length = 2 ∧
      (umdk_usound_cmd k st cmd reply).2.1.data 0 = u8 k.UNWDS_USOUND_MODULE_ID ∧
      (k.UNWDS_USOUND_MODULE_ID < 256 →
        (umdk_usound_cmd k st cmd reply).2.1.data 0 = k.UNWDS_USOUND_MODULE_ID) ∧
      ((umdk_usound_cmd k st cmd reply).2.1.data 1 = 0 ∨
        (umdk_usound_cmd k st cmd reply).2.1.data 1 = 255)) ∧
    (cmd.length = 2 ∧ cmd.data 0 = k.UMDK_USOUND_CMD_SET_PERIOD →
      (umdk_usound_cmd k st cmd reply).2.1.data 1 = 0) ∧
    (1 ≤ cmd.length ∧ cmd.data 0 = k.UMDK_USOUND_CMD_INIT_SENSOR →
      (umdk_usound_cmd k st cmd reply).2.1.data 1 = 0) ∧
    (cmd.length = 0 → (umdk_usound_cmd k st cmd reply).2.1.data 1 = 255) ∧
    (1 ≤ cmd.length ∧ cmd.length ≠ 2 ∧ cmd.data 0 = k.UMDK_USOUND_CMD_SET_PERIOD →
      (umdk_usound_cmd k st cmd reply).2.1.data 1 = 255) ∧
    (1 ≤ cmd.length ∧ cmd.data 0 ≠ k.UMDK_USOUND_CMD_SET_PERIOD ∧
        cmd.data 0 ≠ k.UMDK_USOUND_CMD_POLL ∧ cmd.data 0 ≠ k.UMDK_USOUND_CMD_INIT_SENSOR →
      (umdk_usound_cmd k st cmd reply).2.1.data 1 = 255) := by
  have hu8 : k.UNWDS_USOUND_MODULE_ID < 256 →
      u8 (k.UNWDS_USOUND_MODULE_ID : Int) = k.UNWDS_USOUND_MODULE_ID := by
    intro h
    unfold u8
    omega
  by_cases hlen : cmd.length < 1
  · have hl0 : cmd.length = 0 := by omega
    simp [umdk_usound_cmd, hl0, reply_fail, store]
    exact hu8
  · by_cases hs : cmd.data 0 = k.UMDK_USOUND_CMD_SET_PERIOD
    · by_cases hl2 : cmd.length = 2
      · simp [umdk_usound_cmd, hs, hl2, reply_ok, store, h1, h2]
        exact hu8
      · have : 1 ≤ cmd.length := by omega
        simp [umdk_usound_cmd, hlen, hs, hl2, reply_fail, store, h1, h2, this]
        exact hu8
    · by_cases hp : cmd.data 0 = k.UMDK_USOUND_CMD_POLL
      · have : 1 ≤ cmd.length := by omega
        have hne0 : ¬ cmd.length = 0 := by omega
        simp [umdk_usound_cmd, hlen, hp, h1.symm, h3, this, hne0]
      · by_cases hi : cmd.data 0 = k.UMDK_USOUND_CMD_INIT_SENSOR
        · have : 1 ≤ cmd.length := by omega
          have hne0 : ¬ cmd.length = 0 := by omega
          simp [umdk_usound_cmd, hlen, hi, h2.symm, h3.symm, reply_ok, store, this, hne0]
          exact hu8
        · have : 1 ≤ cmd.length := by omega
          simp [umdk_usound_cmd, hlen, hs, hp, hi, reply_fail, store, this]
          exact hu8

/-- C7 at concrete commands (codes 0, 1, 2 for set-period, poll, re-initialize):
the poll command gets no reply, set-period with one argument byte is answered
with 0, the unknown sub-command 9 is answered with 255. -/
theorem C7_command_outcomes_witness :
    (umdk_usound_cmd sample_usound (sample_threshold_state 500) (sample_cmd [1])
      module_data_zero).1 = false ∧
    (umdk_usound_cmd sample_usound (sample_threshold_state 500) (sample_cmd [0, 30])
      module_data_zero).2.1.data 1 = 0 ∧
    (umdk_usound_cmd sample_usound (sample_threshold_state 500) (sample_cmd [9])
      module_data_zero).2.1.data 1 = 255 :=
  ⟨((C7_command_outcomes sample_usound (sample_threshold_state 500) (sample_cmd [1])
      module_data_zero (by decide) (by decide) (by decide)).1 ⟨by decide, rfl⟩).1,
   (C7_command_outcomes sample_usound (sample_threshold_state 500) (sample_cmd [0, 30])
      module_data_zero (by decide) (by decide) (by decide)).2.2.1 ⟨rfl, rfl⟩,
   (C7_command_outcomes sample_usound (sample_threshold_state 500) (sample_cmd [9])
      module_data_zero (by decide) (by decide) (by decide)).2.2.2.2.2.2
      ⟨by decide, by decide, by decide, by decide⟩⟩

/-! ## Session manager: successful join -/

/-- C8, the claim as stated fails: with the uplink-failure counter at 1 (one
confirmed uplink has failed, `max_retr = 2`), a join request that succeeds
leaves the uplink-failure counter at 1; only the join-retry counter is 0. -/
theorem C8_join_success_keeps_uplink_failures :
    sender_thread ⟨2, NodeClass.LS_ED_CLASS_A⟩ sample_consts
        (sample_env LoramacStatus.JOIN_SUCCEEDED LoramacStatus.TX_SCHEDULED []) ⟨0, 1⟩
        sample_msg_join = (⟨0, 1⟩, [Effect.join_attempt]) ∧
    (sender_thread ⟨2, NodeClass.LS_ED_CLASS_A⟩ sample_consts
        (sample_env LoramacStatus.JOIN_SUCCEEDED LoramacStatus.TX_SCHEDULED []) ⟨0, 1⟩
        sample_msg_join).1.uplinks_failed ≠ 0 := by
  decide

/-- C8 as amended. When a join attempt succeeds, the join-retry counter is 0
afterwards for every value the two counters had before, and the uplink-failure
counter keeps the value it had; the only effect is the attempt itself. -/
theorem C8_join_success_resets_join_retries
    (cfg : NodeSettings) (k : UnwdsConsts) (env : Env) (st : SessionState) (msg : msg_t)
    (hmsg : msg.sender_pid ≠ env.loramac_pid)
    (hres : env.join_res = LoramacStatus.JOIN_SUCCEEDED) :
    (sender_thread cfg k env st msg).1.current_join_retries = 0 ∧
    (sender_thread cfg k env st msg).1.uplinks_failed = st.uplinks_failed ∧
    (sender_thread cfg k env st msg).2 = [Effect.join_attempt] := by
  simp [sender_thread, hmsg, hres, node_join_uplinks]

/-- C8 as amended, at a concrete input: counters 119 and 3 before the attempt,
0 and 3 after it. -/
theorem C8_join_success_witness :
    (sender_thread ⟨2, NodeClass.LS_ED_CLASS_C⟩ sample_consts
        (sample_env LoramacStatus.JOIN_SUCCEEDED LoramacStatus.TX_SCHEDULED []) ⟨119, 3⟩
        sample_msg_join).1.current_join_retries = 0 ∧
    (sender_thread ⟨2, NodeClass.LS_ED_CLASS_C⟩ sample_consts
        (sample_env LoramacStatus.JOIN_SUCCEEDED LoramacStatus.TX_SCHEDULED []) ⟨119, 3⟩
        sample_msg_join).1.uplinks_failed = 3 :=
  have h := C8_join_success_resets_join_retries ⟨2, NodeClass.LS_ED_CLASS_C⟩ sample_consts
    (sample_env LoramacStatus.JOIN_SUCCEEDED LoramacStatus.TX_SCHEDULED []) ⟨119, 3⟩
    sample_msg_join (by decide) rfl
  ⟨h.1, h.2.1⟩

/-! ## After the retries are exhausted -/

theorem count_join_sent_of_no_join (es : List Effect)
    (h : ∀ e ∈ es, Effect.is_join e = false) : count_join_sent es = 0 := by
  induction es with
  | nil => rfl
  | cons e es ih =>
    have he := h e (List.mem_cons_self e es)
    have ht := ih (fun x hx => h x (List.mem_cons_of_mem e hx))
    cases e <;> simp_all [count_join_sent, Effect.is_join]

theorem unwds_callback_no_join (st : SessionState) (adc : AdcEnv) (send_res : LoramacStatus)
    (buf : module_data_t) (h : send_res ≠ LoramacStatus.NOT_JOINED) :
    ∀ e ∈ (unwds_callback st adc send_res buf).2, Effect.is_join e = false := by
  unfold unwds_callback unwds_callback_frame
  intro e he
  cases send_res <;> first | exact absurd rfl h | skip
  all_goals
    split at he
    · simp at he; subst he; rfl
    · split at he
      · simp at he; subst he; rfl
      · simp at he

theorem appdata_received_no_join (k : UnwdsConsts) (env : Env) (st : SessionState)
    (buf : List Nat) (h : env.send_res ≠ LoramacStatus.NOT_JOINED) :
    ∀ e ∈ (appdata_received k env st buf).2, Effect.is_join e = false := by
  intro e he
  unfold appdata_received at he
  split at he
  · simp at he
  · simp only at he
    split at he
    · simp only [List.append_assoc, List.mem_append, List.mem_singleton] at he
      rcases he with he | he | he
      · subst he; rfl
      · subst he; rfl
      · exact unwds_callback_no_join st env.adc env.send_res _ h e he
    · simp only [List.mem_singleton] at he
      subst he; rfl

theorem cnf_failures_cons (e : Event) (es : List Event) :
    cnf_failures (e :: es) = cnf_failures [e] + cnf_failures es := by
  cases e with
  | loramac_msg type env =>
    cases type <;> simp [cnf_failures]
    omega
  | _ => simp [cnf_failures]

theorem step_keeps_quiet (cfg : NodeSettings) (k : UnwdsConsts) (w : World) (e : Event)
    (hd : w.session.current_join_retries = 0) (hp : w.pending_joins = 0)
    (ht : w.retry_timer = false)
    (hask : Event.asks_join e = false)
    (hcnf : w.session.uplinks_failed + cnf_failures [e] ≤ cfg.max_retr) :
    (∀ x ∈ (World.step cfg k w e).2, Effect.is_join x = false) ∧
    (World.step cfg k w e).1.session.current_join_retries = 0 ∧
    (World.step cfg k w e).1.pending_joins = 0 ∧
    (World.step cfg k w e).1.retry_timer = false ∧
    (World.step cfg k w e).1.session.uplinks_failed ≤
      w.session.uplinks_failed + cnf_failures [e] := by
  cases e with
  | join_command => simp [Event.asks_join] at hask
  | retry_timer_fired => simp [World.step, ht, hd, hp]
  | module_report adc send_res buf =>
    have hs : send_res ≠ LoramacStatus.NOT_JOINED := by
      simpa [Event.asks_join] using hask
    have hq := unwds_callback_no_join w.session adc send_res buf hs
    have hc := count_join_sent_of_no_join _ hq
    simp only [World.step]
    exact ⟨hq, hd, by rw [hc]; omega, ht, by omega⟩
  | loramac_msg type env =>
    cases type with
    | TX_DONE => simp [World.step, sender_thread, count_join_sent, hd, hp, ht]
    | TX_CNF_FAILED =>
      have h1 : (w.session.uplinks_failed + 1) % 256 ≤ w.session.uplinks_failed + 1 :=
        Nat.mod_le _ _
      have h2 : w.session.uplinks_failed + 1 ≤ cfg.max_retr := by
        simpa [cnf_failures] using hcnf
      have h3 : ¬ (w.session.uplinks_failed + 1) % 256 > cfg.max_retr := by omega
      simp [World.step, sender_thread, count_join_sent, hd, hp, ht, h3, cnf_failures]
      exact h1
    | RX =>
      have hs : env.send_res ≠ LoramacStatus.NOT_JOINED := by
        simpa [Event.asks_join] using hask
      by_cases hb : env.rx_payload.length = 0 ∧ env.rx_ack = true
      · simp [World.step, sender_thread, count_join_sent, hd, hp, ht, hb]
      · have hq0 := appdata_received_no_join k env w.session env.rx_payload hs
        have hq : ∀ x ∈ Effect.appdata_call env.rx_payload ::
            (appdata_received k env w.session env.rx_payload).2, Effect.is_join x = false := by
          intro x hx
          rcases List.mem_cons.1 hx with h | h
          · subst h; rfl
          · exact hq0 x h
        have hc := count_join_sent_of_no_join _ hq
        simp only [World.step, sender_thread, hb, ne_eq, not_true_eq_false, if_false]
        exact ⟨hq, hd, by rw [hc]; omega, ht, by omega⟩
    | JOIN => simp [World.step, sender_thread, count_join_sent, hd, hp, ht]
    | other t => simp [World.step, sender_thread, count_join_sent, hd, hp, ht]
  | join_msg_received env => simp [World.step, hp, hd, ht]

theorem run_keeps_quiet (cfg : NodeSettings) (k : UnwdsConsts) (es : List Event) :
    ∀ w : World, w.session.current_join_retries = 0 → w.pending_joins = 0 →
      w.retry_timer = false →
      (∀ e ∈ es, Event.asks_join e = false) →
      w.session.uplinks_failed + cnf_failures es ≤ cfg.max_retr →
      ∀ x ∈ (World.run cfg k w es).2, Effect.is_join x = false := by
  induction es with
  | nil =>
    intro w _ _ _ _ _ x hx
    simp [World.run] at hx
  | cons e es ih =>
    intro w hd hp ht hask hcnf x hx
    rw [cnf_failures_cons] at hcnf
    have hs := step_keeps_quiet cfg k w e hd hp ht (hask e (List.mem_cons_self e es))
      (by omega)
    simp only [World.run, List.mem_append] at hx
    rcases hx with hx | hx
    · exact hs.1 x hx
    · exact ih (World.step cfg k w e).1 hs.2.1 hs.2.2.1 hs.2.2.2.1
        (fun y hy => hask y (List.mem_cons_of_mem e hy)) (by omega) x hx

/-- C9, the claim as stated fails. A class-A node with `max_retr = 0` whose one
join attempt fails is left with counter 0, nothing pending and no timer. From
there, with no join command: a module report whose send is answered not-joined
posts a join request, and the sender thread then runs `node_join`; so does a
single confirmed-uplink-failed message of the network stack. -/
theorem C9_report_in_disabled_state_rejoins :
    World.run ⟨0, NodeClass.LS_ED_CLASS_A⟩ sample_consts ⟨⟨0, 0⟩, 1, false⟩
        [Event.join_msg_received
          (sample_env LoramacStatus.JOIN_FAILED LoramacStatus.NOT_JOINED [])] =
      (⟨⟨0, 0⟩, 0, false⟩, [Effect.join_attempt]) ∧
    (World.run ⟨0, NodeClass.LS_ED_CLASS_A⟩ sample_consts ⟨⟨0, 0⟩, 0, false⟩
        [Event.module_report sample_adc LoramacStatus.NOT_JOINED sample_report,
         Event.join_msg_received
          (sample_env LoramacStatus.JOIN_FAILED LoramacStatus.NOT_JOINED [])]).2 =
      [Effect.loramac_send [7, 0, 0, 0, 0, 0, 0, 0, 0, 0, 0, 0, 0, 0, 25, 66],
       Effect.msg_join_sent, Effect.join_attempt] ∧
    (World.run ⟨0, NodeClass.LS_ED_CLASS_A⟩ sample_consts ⟨⟨0, 0⟩, 0, false⟩
        [Event.loramac_msg LoramacMsgType.TX_CNF_FAILED
          (sample_env LoramacStatus.JOIN_FAILED LoramacStatus.NOT_JOINED []),
         Event.join_msg_received
          (sample_env LoramacStatus.JOIN_FAILED LoramacStatus.NOT_JOINED [])]).2 =
      [Effect.msg_join_sent, Effect.join_attempt] := by
  decide

/-- C9 as amended. From a state with join-retry counter 0, no join message
pending and the retry timer not armed (the state a class-A node is left in when
its retries are exhausted), over every sequence of events that contains no
join command, no module report or routed command reply whose send is answered
not-joined, and too few confirmed-uplink failures for the uplink-failure counter
to exceed `max_retr`: no join request message is sent and `node_join` is never
invoked. A module report of at most 30 content bytes whose send is answered
not-joined does post a join request in that state. -/
theorem C9_no_join_until_asked (cfg : NodeSettings) (k : UnwdsConsts) (w : World)
    (es : List Event)
    (hd : w.session.current_join_retries = 0) (hp : w.pending_joins = 0)
    (ht : w.retry_timer = false)
    (hask : ∀ e ∈ es, Event.asks_join e = false)
    (hcnf : w.session.uplinks_failed + cnf_failures es ≤ cfg.max_retr) :
    Effect.msg_join_sent ∉ (World.run cfg k w es).2 ∧
    Effect.join_attempt ∉ (World.run cfg k w es).2 ∧
    (∀ (adc : AdcEnv) (buf : module_data_t), buf.length < 31 →
      Effect.msg_join_sent ∈
        (World.step cfg k w (Event.module_report adc LoramacStatus.NOT_JOINED buf)).2) := by
  have h := run_keeps_quiet cfg k es w hd hp ht hask hcnf
  refine ⟨?_, ?_, ?_⟩
  · intro hm
    have := h _ hm
    simp [Effect.is_join] at this
  · intro hm
    have := h _ hm
    simp [Effect.is_join] at this
  · intro adc buf hlen
    by_cases h15 : buf.length < 15
    · simp [World.step, unwds_callback, unwds_callback_frame, h15, hd]
    · simp [World.step, unwds_callback, unwds_callback_frame, h15, hlen, hd]

/-- C9 as amended, at a concrete run from the exhausted state with
`max_retr = 2`: a transmit-done message, a report whose send is scheduled, a
downlink for an unknown module, one confirmed-uplink failure, an expiry of the
unarmed timer and a receive on the empty mailbox cause no join request and no
join attempt. -/
theorem C9_no_join_until_asked_witness :
    Effect.msg_join_sent ∉
      (World.run ⟨2, NodeClass.LS_ED_CLASS_A⟩ sample_consts ⟨⟨0, 0⟩, 0, false⟩
        [Event.loramac_msg LoramacMsgType.TX_DONE
          (sample_env LoramacStatus.JOIN_FAILED LoramacStatus.TX_SCHEDULED []),
         Event.module_report sample_adc LoramacStatus.TX_SCHEDULED sample_report,
         Event.loramac_msg LoramacMsgType.RX
          (sample_env LoramacStatus.JOIN_FAILED LoramacStatus.BUSY [9, 1, 2]),
         Event.loramac_msg LoramacMsgType.TX_CNF_FAILED
          (sample_env LoramacStatus.JOIN_FAILED LoramacStatus.TX_SCHEDULED []),
         Event.retry_timer_fired,
         Event.join_msg_received
          (sample_env LoramacStatus.JOIN_FAILED LoramacStatus.TX_SCHEDULED [])]).2 ∧
    Effect.join_attempt ∉
      (World.run ⟨2, NodeClass.LS_ED_CLASS_A⟩ sample_consts ⟨⟨0, 0⟩, 0, false⟩
        [Event.loramac_msg LoramacMsgType.TX_DONE
          (sample_env LoramacStatus.JOIN_FAILED LoramacStatus.TX_SCHEDULED []),
         Event.module_report sample_adc LoramacStatus.TX_SCHEDULED sample_report,
         Event.loramac_msg LoramacMsgType.RX
          (sample_env LoramacStatus.JOIN_FAILED LoramacStatus.BUSY [9, 1, 2]),
         Event.loramac_msg LoramacMsgType.TX_CNF_FAILED
          (sample_env LoramacStatus.JOIN_FAILED LoramacStatus.TX_SCHEDULED []),
         Event.retry_timer_fired,
         Event.join_msg_received
          (sample_env LoramacStatus.JOIN_FAILED LoramacStatus.TX_SCHEDULED [])]).2 :=
  have h := C9_no_join_until_asked ⟨2, NodeClass.LS_ED_CLASS_A⟩ sample_consts
    ⟨⟨0, 0⟩, 0, false⟩
    [Event.loramac_msg LoramacMsgType.TX_DONE
      (sample_env LoramacStatus.JOIN_FAILED LoramacStatus.TX_SCHEDULED []),
     Event.module_report sample_adc LoramacStatus.TX_SCHEDULED sample_report,
     Event.loramac_msg LoramacMsgType.RX
      (sample_env LoramacStatus.JOIN_FAILED LoramacStatus.BUSY [9, 1, 2]),
     Event.loramac_msg LoramacMsgType.TX_CNF_FAILED
      (sample_env LoramacStatus.JOIN_FAILED LoramacStatus.TX_SCHEDULED []),
     Event.retry_timer_fired,
     Event.join_msg_received
      (sample_env LoramacStatus.JOIN_FAILED LoramacStatus.TX_SCHEDULED [])]
    rfl rfl rfl
    (by
      intro e he
      simp only [List.mem_cons, List.mem_singleton, List.not_mem_nil, or_false] at he
      rcases he with rfl | rfl | rfl | rfl | rfl | rfl <;> rfl)
    (by decide)
  ⟨h.1, h.2.1⟩

/-! ## The diagnostic trailer -/

theorem frame_trailer_and_content (adc : AdcEnv) (d : Nat → Nat) (bytes L : Nat)
    (hb : 2 ≤ bytes) (hL : L ≤ bytes - 2) :
    (bytes_of (write_trailer adc d bytes) bytes).length = bytes ∧
    (bytes_of (write_trailer adc d bytes) bytes)[bytes - 2]? =
      some (if adc.temp_init = 0 then u8 (adc.convert_to_be_sam (i8 adc.temp_sample))
            else d (bytes - 2)) ∧
    (bytes_of (write_trailer adc d bytes) bytes)[bytes - 1]? =
      some (if adc.vref_init = 0 then u8 (Int.tdiv adc.vref_sample 50) else d (bytes - 1)) ∧
    (∀ i, i < L → (bytes_of (write_trailer adc d bytes) bytes)[i]? = some (d i)) := by
  refine ⟨bytes_of_length _ _, ?_, ?_, ?_⟩
  · rw [bytes_of_getElem? _ _ _ (by omega), write_trailer_temp adc d bytes hb]
  · rw [bytes_of_getElem? _ _ _ (by omega), write_trailer_vref adc d bytes hb]
  · intro i hi
    rw [bytes_of_getElem? _ _ _ (by omega), write_trailer_content adc d bytes i (by omega)]

/-- C10. For every reply the encoder accepts (content length `L ≤ 30`),
whatever its bytes (so for every module identifier in byte 0), exactly one
frame is sent, of `F = 16` bytes when `L < 15` and `F = 32` bytes otherwise.
Byte `F - 2` of the frame is the temperature byte (the reading converted to
`int8_t`, then to sign-and-magnitude) when the temperature line initialises and
the buffer's original byte `F - 2` otherwise; byte `F - 1` is the supply byte
(the reading divided by 50) when the supply line initialises and the buffer's
original byte `F - 1` otherwise; every byte below `L` is the buffer's original
byte; and `L ≤ F - 2`, so the trailer does not overlap the content. -/
theorem C10_trailer_bytes_and_content (st : SessionState) (adc : AdcEnv)
    (send_res : LoramacStatus) (buf : module_data_t) (hL : buf.length ≤ 30) :
    (buf.length < 15 →
      ∃ p, sent_frames (unwds_callback st adc send_res buf).2 = [p] ∧
        p.length = 16 ∧
        p[14]? = some (if adc.temp_init = 0 then u8 (adc.convert_to_be_sam (i8 adc.temp_sample))
                       else buf.data 14) ∧
        p[15]? = some (if adc.vref_init = 0 then u8 (Int.tdiv adc.vref_sample 50)
                       else buf.data 15) ∧
        (∀ i, i < buf.length → p[i]? = some (buf.data i)) ∧
        buf.length ≤ 14) ∧
    (15 ≤ buf.length →
      ∃ p, sent_frames (unwds_callback st adc send_res buf).2 = [p] ∧
        p.length = 32 ∧
        p[30]? = some (if adc.temp_init = 0 then u8 (adc.convert_to_be_sam (i8 adc.temp_sample))
                       else buf.data 30) ∧
        p[31]? = some (if adc.vref_init = 0 then u8 (Int.tdiv adc.vref_sample 50)
                       else buf.data 31) ∧
        (∀ i, i < buf.length → p[i]? = some (buf.data i)) ∧
        buf.length ≤ 30) := by
  constructor
  · intro h
    have hf := frame_trailer_and_content adc buf.data 16 buf.length (by decide) (by omega)
    refine ⟨_, ?_, hf.1, hf.2.1, hf.2.2.1, hf.2.2.2, by omega⟩
    simp only [unwds_callback, h, if_true]
    exact unwds_callback_frame_sent st adc send_res buf 16
  · intro h
    have h15 : ¬ buf.length < 15 := by omega
    have h31 : buf.length < 31 := by omega
    have hf := frame_trailer_and_content adc buf.data 32 buf.length (by decide) (by omega)
    refine ⟨_, ?_, hf.1, hf.2.1, hf.2.2.1, hf.2.2.2, hL⟩
    simp only [unwds_callback, h15, h31, if_true, if_false]
    exact unwds_callback_frame_sent st adc send_res buf 32

/-- C10 at content length 14 with the temperature line failing to initialise:
the frame has 16 bytes, byte 14 is the buffer's original 0xAA, byte 15 is the
supply byte 3000 / 50 = 60, and the 14 content bytes are unchanged. -/
theorem C10_trailer_witness :
    sent_frames (unwds_callback ⟨0, 0⟩ sample_adc_no_temp LoramacStatus.TX_SCHEDULED
      sample_reply14).2 = [[1, 2, 3, 4, 5, 6, 7, 8, 9, 10, 11, 12, 13, 14, 170, 60]] ∧
    ∃ p, sent_frames (unwds_callback ⟨0, 0⟩ sample_adc_no_temp LoramacStatus.TX_SCHEDULED
        sample_reply14).2 = [p] ∧ p.length = 16 ∧ p[14]? = some 170 ∧ p[15]? = some 60 :=
  ⟨by decide,
   match (C10_trailer_bytes_and_content ⟨0, 0⟩ sample_adc_no_temp LoramacStatus.TX_SCHEDULED
      sample_reply14 (by decide)).1 (by decide) with
   | ⟨p, h1, h2, h3, h4, _, _⟩ => ⟨p, h1, h2, h3, h4⟩⟩

/-! ## Routing of downlink payloads -/

theorem bytes_of_getD (t : List Nat) (g : Nat → Nat) :
    bytes_of (fun i => if i < t.length then t.getD i 0 else g i) t.length = t := by
  apply List.ext_getElem?
  intro i
  by_cases h : i < t.length
  · rw [bytes_of_getElem? _ _ _ h]
    simp [h, List.getD_eq_getElem?_getD, List.getElem?_eq_getElem h]
  · have h1 : t.length ≤ i := by omega
    rw [List.getElem?_eq_none h1]
    apply List.getElem?_eq_none
    rw [bytes_of_length]
    exact h1

theorem appdata_cmd_bytes (env : Env) (buf : List Nat) :
    bytes_of (appdata_cmd env buf).data (buf.length - 1) = buf.tail := by
  cases buf with
  | nil => rfl
  | cons a t =>
    simp only [appdata_cmd, List.length_cons, Nat.add_sub_cancel, List.tail_cons,
      List.getD_cons_succ]
    exact bytes_of_getD t env.stack_cmd.data

theorem unwds_callback_effects (st : SessionState) (adc : AdcEnv) (send_res : LoramacStatus)
    (buf : module_data_t) :
    (unwds_callback st adc send_res buf).2 = [] ∨
    (∃ p, (unwds_callback st adc send_res buf).2 = [Effect.loramac_send p]) ∨
    (∃ p, (unwds_callback st adc send_res buf).2 =
      [Effect.loramac_send p, Effect.msg_join_sent]) := by
  unfold unwds_callback unwds_callback_frame
  by_cases h15 : buf.length < 15
  · simp only [h15, if_true]
    cases send_res <;> first
      | exact Or.inr (Or.inl ⟨_, rfl⟩)
      | (by_cases h0 : st.current_join_retries = 0
         · simp only [h0, if_true]; exact Or.inr (Or.inr ⟨_, rfl⟩)
         · simp only [h0, if_false]; exact Or.inr (Or.inl ⟨_, rfl⟩))
  · by_cases h31 : buf.length < 31
    · simp only [h15, h31, if_true, if_false]
      cases send_res <;> first
        | exact Or.inr (Or.inl ⟨_, rfl⟩)
        | (by_cases h0 : st.current_join_retries = 0
           · simp only [h0, if_true]; exact Or.inr (Or.inr ⟨_, rfl⟩)
           · simp only [h0, if_false]; exact Or.inr (Or.inl ⟨_, rfl⟩))
    · simp [h15, h31]

theorem router_calls_append (xs ys : List Effect) :
    router_calls (xs ++ ys) = router_calls xs ++ router_calls ys := by
  induction xs with
  | nil => rfl
  | cons x xs ih => cases x <;> simp [router_calls, ih]

theorem encoder_calls_append (xs ys : List Effect) :
    encoder_calls (xs ++ ys) = encoder_calls xs ++ encoder_calls ys := by
  induction xs with
  | nil => rfl
  | cons x xs ih => cases x <;> simp [encoder_calls, ih]

theorem sent_frames_append (xs ys : List Effect) :
    sent_frames (xs ++ ys) = sent_frames xs ++ sent_frames ys := by
  induction xs with
  | nil => rfl
  | cons x xs ih => cases x <;> simp [sent_frames, ih]

theorem appdata_calls_append (xs ys : List Effect) :
    appdata_calls (xs ++ ys) = appdata_calls xs ++ appdata_calls ys := by
  induction xs with
  | nil => rfl
  | cons x xs ih => cases x <;> simp [appdata_calls, ih]

theorem unwds_callback_calls_nothing (st : SessionState) (adc : AdcEnv)
    (send_res : LoramacStatus) (buf : module_data_t) :
    router_calls (unwds_callback st adc send_res buf).2 = [] ∧
    encoder_calls (unwds_callback st adc send_res buf).2 = [] ∧
    appdata_calls (unwds_callback st adc send_res buf).2 = [] := by
  rcases unwds_callback_effects st adc send_res buf with h | ⟨p, h⟩ | ⟨p, h⟩ <;>
    simp [h, router_calls, encoder_calls, appdata_calls]

theorem appdata_reply_result (k : UnwdsConsts) (env : Env) (buf : List Nat) :
    (appdata_reply k env buf).1 =
      (env.unwds_send_to_module (buf.getD 0 0) (appdata_cmd env buf) module_data_zero).1 := by
  unfold appdata_reply
  simp only
  split <;> rfl

theorem appdata_received_effects (k : UnwdsConsts) (env : Env) (st : SessionState)
    (buf : List Nat) :
    (appdata_received k env st buf).2 =
      if buf.length < 2 then []
      else if (appdata_reply k env buf).1 ≠ k.UNWDS_MODULE_NO_DATA then
        [Effect.router_call (buf.getD 0 0) buf.tail,
         Effect.encoder_call (appdata_reply k env buf).2.length] ++
          (unwds_callback st env.adc env.send_res (appdata_reply k env buf).2).2
      else [Effect.router_call (buf.getD 0 0) buf.tail] := by
  unfold appdata_received
  rw [appdata_cmd_bytes]
  by_cases h2 : buf.length < 2
  · simp [h2]
  · by_cases hn : (appdata_reply k env buf).1 = k.UNWDS_MODULE_NO_DATA
    · simp [h2, hn]
    · simp [h2, hn]

theorem router_calls_appdata_received (k : UnwdsConsts) (env : Env) (st : SessionState)
    (buf : List Nat) :
    router_calls (appdata_received k env st buf).2 =
      if buf.length < 2 then [] else [(buf.getD 0 0, buf.tail)] := by
  rw [appdata_received_effects]
  have hc := (unwds_callback_calls_nothing st env.adc env.send_res (appdata_reply k env buf).2).1
  by_cases h2 : buf.length < 2
  · simp [h2, router_calls]
  · by_cases hn : (appdata_reply k env buf).1 = k.UNWDS_MODULE_NO_DATA
    · simp [h2, hn, router_calls]
    · simp [h2, hn, router_calls, hc]

/-- C12. For every routed downlink command (payload of at least 2 bytes), the
encoder is invoked if and only if the router's result is not the no-data code.
With the no-data result the only effect is the router's invocation and no frame
is sent. With every other result the encoder is invoked once, on the reply as
it stands after the router and the not-found patch, and its effects follow; in
particular a reply of length zero is handed over and goes out as one frame of
16 bytes. -/
theorem C12_encoder_invoked_iff_not_no_data (k : UnwdsConsts) (env : Env) (st : SessionState)
    (buf : List Nat) (hlen : 2 ≤ buf.length) :
    (encoder_calls (appdata_received k env st buf).2 ≠ [] ↔
      (env.unwds_send_to_module (buf.getD 0 0) (appdata_cmd env buf) module_data_zero).1 ≠
        k.UNWDS_MODULE_NO_DATA) ∧
    ((env.unwds_send_to_module (buf.getD 0 0) (appdata_cmd env buf) module_data_zero).1 =
        k.UNWDS_MODULE_NO_DATA →
      (appdata_received k env st buf).2 = [Effect.router_call (buf.getD 0 0) buf.tail] ∧
      sent_frames (appdata_received k env st buf).2 = []) ∧
    ((env.unwds_send_to_module (buf.getD 0 0) (appdata_cmd env buf) module_data_zero).1 ≠
        k.UNWDS_MODULE_NO_DATA →
      encoder_calls (appdata_received k env st buf).2 = [(appdata_reply k env buf).2.length] ∧
      (appdata_received k env st buf).2 =
        [Effect.router_call (buf.getD 0 0) buf.tail,
         Effect.encoder_call (appdata_reply k env buf).2.length] ++
          (unwds_callback st env.adc env.send_res (appdata_reply k env buf).2).2 ∧
      ((env.unwds_send_to_module (buf.getD 0 0) (appdata_cmd env buf) module_data_zero).1 ≠
          k.UNWDS_MODULE_NOT_FOUND →
        (appdata_reply k env buf).2 =
          (env.unwds_send_to_module (buf.getD 0 0) (appdata_cmd env buf) module_data_zero).2) ∧
      ((appdata_reply k env buf).2.length = 0 →
        ∃ p, sent_frames (appdata_received k env st buf).2 = [p] ∧ p.length = 16)) := by
  have h2 : ¬ buf.length < 2 := by omega
  have hres := appdata_reply_result k env buf
  have heff := appdata_received_effects k env st buf
  have hc := unwds_callback_calls_nothing st env.adc env.send_res (appdata_reply k env buf).2
  rw [← hres]
  by_cases hn : (appdata_reply k env buf).1 = k.UNWDS_MODULE_NO_DATA
  · have he : (appdata_received k env st buf).2 =
        [Effect.router_call (buf.getD 0 0) buf.tail] := by
      rw [heff]; simp [h2, hn]
    refine ⟨?_, ?_, ?_⟩
    · rw [he]; simp [encoder_calls, hn]
    · intro _
      rw [he]
      exact ⟨rfl, rfl⟩
    · intro h
      exact absurd hn h
  · have he : (appdata_received k env st buf).2 =
        [Effect.router_call (buf.getD 0 0) buf.tail,
         Effect.encoder_call (appdata_reply k env buf).2.length] ++
          (unwds_callback st env.adc env.send_res (appdata_reply k env buf).2).2 := by
      rw [heff]; simp [h2, hn]
    have hcalls : encoder_calls (appdata_received k env st buf).2 =
        [(appdata_reply k env buf).2.length] := by
      rw [he, encoder_calls_append, hc.2.1]
      rfl
    refine ⟨?_, ?_, ?_⟩
    · rw [hcalls]; simp [hn]
    · intro h
      exact absurd h hn
    · intro _
      refine ⟨hcalls, he, ?_, ?_⟩
      · intro hnf
        rw [hres] at hnf
        simp only [appdata_reply, hnf, if_false]
      · intro h0
        have h15 : (appdata_reply k env buf).2.length < 15 := by omega
        refine ⟨_, ?_, bytes_of_length (write_trailer env.adc (appdata_reply k env buf).2.data 16) 16⟩
        rw [he, sent_frames_append]
        simp only [unwds_callback, h15, if_true]
        rw [unwds_callback_frame_sent]
        rfl

/-- C12 at concrete downlinks to module 9: a router answering no-data causes
no encoder call and no frame; a router answering with an empty reply causes one
encoder call with length 0 and one frame. -/
theorem C12_encoder_invoked_witness :
    ((appdata_received sample_consts (sample_env_rx sample_router_no_data [9, 1] false)
        ⟨0, 0⟩ [9, 1]).2 = [Effect.router_call 9 [1]] ∧
      sent_frames (appdata_received sample_consts
        (sample_env_rx sample_router_no_data [9, 1] false) ⟨0, 0⟩ [9, 1]).2 = []) ∧
    encoder_calls (appdata_received sample_consts
        (sample_env_rx sample_router_empty_reply [9, 1] false) ⟨0, 0⟩ [9, 1]).2 = [0] :=
  ⟨(C12_encoder_invoked_iff_not_no_data sample_consts
      (sample_env_rx sample_router_no_data [9, 1] false) ⟨0, 0⟩ [9, 1] (by decide)).2.1 rfl,
   ((C12_encoder_invoked_iff_not_no_data sample_consts
      (sample_env_rx sample_router_empty_reply [9, 1] false) ⟨0, 0⟩ [9, 1] (by decide)).2.2
      (by decide)).1⟩

/-! ## The usound module: configuration and heartbeat -/

theorem u8_of_lt (n : Nat) (h : n < 256) : u8 (n : Int) = n := by
  unfold u8
  omega

theorem reset_config_result (k : UsoundConsts) (config : ultrasoundrange_config_t) :
    reset_config k config =
      ({ is_valid := 1, publish_period_min := 15, sensitivity := 50, min_distance := 400,
         max_distance := 6000, threshold := 500, mode := u8 k.UMDK_SOUND_MODE_DISTANCE },
       [UsoundEffect.nvram_write
         { is_valid := 1, publish_period_min := 15, sensitivity := 50, min_distance := 400,
           max_distance := 6000, threshold := 500, mode := u8 k.UMDK_SOUND_MODE_DISTANCE }]) := by
  rfl

theorem init_config_resets (k : UsoundConsts) (read_ok : Bool)
    (loaded : ultrasoundrange_config_t)
    (h : read_ok = false ∨ loaded.is_valid = 255 ∨ loaded.is_valid = 0) :
    init_config k read_ok loaded = reset_config k loaded := by
  unfold init_config
  cases read_ok with
  | false => simp
  | true =>
    rcases h with h | h
    · exact absurd h (by decide)
    · simp [h]

theorem init_config_keeps (k : UsoundConsts) (read_ok : Bool)
    (loaded : ultrasoundrange_config_t)
    (h : ¬ (read_ok = false ∨ loaded.is_valid = 255 ∨ loaded.is_valid = 0)) :
    init_config k read_ok loaded = (loaded, []) := by
  have hv : ¬ (loaded.is_valid = 255 ∨ loaded.is_valid = 0) := fun h1 => h (Or.inr h1)
  unfold init_config
  cases read_ok with
  | false => exact absurd (Or.inl rfl) h
  | true => simp [hv]

/-- C13. For every outcome of the read from the persistent store, `init_config`
ends with a record whose validity byte is neither 0xFF nor 0. If the read
reports failure, or the validity byte read is 0xFF or 0, the record becomes the
factory defaults (period 15, sensitivity 50, minimum 400, maximum 6000,
threshold 500, distance mode) with validity byte 1 and exactly that record is
written. In every other case the record read is kept unchanged and nothing is
written. Every record `save_config` writes has validity byte 1 and differs from
the one given only there, and `init_config` keeps such a record when it is read
back, without writing. -/
theorem C13_init_config_defaults_or_keeps (k : UsoundConsts) (read_ok : Bool)
    (loaded : ultrasoundrange_config_t) :
    (read_ok = false ∨ loaded.is_valid = 255 ∨ loaded.is_valid = 0 →
      (init_config k read_ok loaded).1 =
        { is_valid := 1, publish_period_min := 15, sensitivity := 50, min_distance := 400,
          max_distance := 6000, threshold := 500, mode := u8 k.UMDK_SOUND_MODE_DISTANCE } ∧
      (k.UMDK_SOUND_MODE_DISTANCE < 256 →
        (init_config k read_ok loaded).1.mode = k.UMDK_SOUND_MODE_DISTANCE) ∧
      nvram_writes (init_config k read_ok loaded).2 = [(init_config k read_ok loaded).1]) ∧
    (¬ (read_ok = false ∨ loaded.is_valid = 255 ∨ loaded.is_valid = 0) →
      (init_config k read_ok loaded).1 = loaded ∧
      nvram_writes (init_config k read_ok loaded).2 = [] ∧
      (init_config k read_ok loaded).2 = []) ∧
    ((init_config k read_ok loaded).1.is_valid ≠ 255 ∧
      (init_config k read_ok loaded).1.is_valid ≠ 0) ∧
    (∀ c : ultrasoundrange_config_t,
      (save_config c).1 = { c with is_valid := 1 } ∧
      (save_config c).1.is_valid = 1 ∧
      nvram_writes (save_config c).2 = [(save_config c).1] ∧
      init_config k true (save_config c).1 = ((save_config c).1, [])) := by
  have hreset := reset_config_result k loaded
  refine ⟨?_, ?_, ?_, ?_⟩
  · intro h
    rw [init_config_resets k read_ok loaded h, hreset]
    refine ⟨rfl, ?_, rfl⟩
    intro hlt
    exact u8_of_lt _ hlt
  · intro h
    rw [init_config_keeps k read_ok loaded h]
    exact ⟨rfl, rfl, rfl⟩
  · by_cases h : read_ok = false ∨ loaded.is_valid = 255 ∨ loaded.is_valid = 0
    · rw [init_config_resets k read_ok loaded h, hreset]
      constructor
      · show (1 : Nat) ≠ 255
        decide
      · show (1 : Nat) ≠ 0
        decide
    · rw [init_config_keeps k read_ok loaded h]
      exact ⟨fun h1 => h (Or.inr (Or.inl h1)), fun h1 => h (Or.inr (Or.inr h1))⟩
  · intro c
    refine ⟨rfl, rfl, rfl, ?_⟩
    apply init_config_keeps
    intro h
    rcases h with h | h | h
    · exact absurd h (by decide)
    · exact absurd h (show (1 : Nat) ≠ 255 by decide)
    · exact absurd h (show (1 : Nat) ≠ 0 by decide)

/-- C14. One cycle of the heartbeat task reads nothing of the module state: for
every configuration it leaves the state as it was, publishes one report that is
not flagged as acknowledgment, has length 5 and bytes `{module_id, 0, 0, 0, 0}`,
sets the 24 hours timer to 86,400,000 ms and does not touch the primary timer;
its effects are the same for any two states. One cycle of the primary task
sets its timer again if and only if the configured period is non-zero, and then
to 60,000 ms times the period. -/
theorem C14_heartbeat_independent_of_config (k : UsoundConsts) (st : UsoundState) (r : Int) :
    (∃ d, published (timer_24hrs_thread k st).2 = [d] ∧
      d.as_ack = false ∧ d.length = 5 ∧
      d.data 0 = u8 k.UNWDS_USOUND_MODULE_ID ∧
      (k.UNWDS_USOUND_MODULE_ID < 256 → d.data 0 = k.UNWDS_USOUND_MODULE_ID) ∧
      d.data 1 = 0 ∧ d.data 2 = 0 ∧ d.data 3 = 0 ∧ d.data 4 = 0) ∧
    timer_24hrs_sets (timer_24hrs_thread k st).2 = [86400000] ∧
    timer_sets (timer_24hrs_thread k st).2 = [] ∧
    (timer_24hrs_thread k st).1 = st ∧
    (∀ st2 : UsoundState, (timer_24hrs_thread k st2).2 = (timer_24hrs_thread k st).2) ∧
    (timer_sets (timer_thread k st r).2 ≠ [] ↔ st.config.publish_period_min ≠ 0) ∧
    (st.config.publish_period_min ≠ 0 →
      timer_sets (timer_thread k st r).2 = [60 * 1000 * st.config.publish_period_min]) ∧
    (st.config.publish_period_min = 0 → timer_sets (timer_thread k st r).2 = []) ∧
    timer_24hrs_sets (timer_thread k st r).2 = [] := by
  have hts : timer_sets (timer_thread k st r).2 =
      if st.config.publish_period_min ≠ 0 then [60 * 1000 * st.config.publish_period_min]
      else [] := by
    unfold timer_thread
    by_cases hw : report_wanted k st.config r = true <;>
      by_cases hp : st.config.publish_period_min = 0 <;>
      simp [hw, hp, timer_sets]
  have ht24 : timer_24hrs_sets (timer_thread k st r).2 = [] := by
    unfold timer_thread
    by_cases hw : report_wanted k st.config r = true <;>
      by_cases hp : st.config.publish_period_min = 0 <;>
      simp [hw, hp, timer_24hrs_sets]
  refine ⟨⟨_, rfl, rfl, rfl, ?_, ?_, ?_, ?_, ?_⟩, rfl, rfl, rfl, fun _ => rfl, ?_, ?_, ?_, ht24⟩
  · simp [store]
  · intro hlt
    simp [store]
    exact u8_of_lt _ hlt
  · simp
  · simp
  · simp
  · rw [hts]
    by_cases hp : st.config.publish_period_min = 0 <;> simp [hp]
  · intro hp
    rw [hts]; simp [hp]
  · intro hp
    rw [hts]; simp [hp]

/-! ## Session manager: unknown attach status -/

/-- C15, evaluated where the code leaves the claim. A class-A node with
`max_retr = 2` and both counters 0 receives a join request and the attach
operation returns the unknown code 99: `node_join` has already counted the
attempt, the default case changes nothing, and the counters are 1 and 0, not the
state before the message. No timer is set, and because the counter is not 0 a
later report whose send is answered not-joined posts no join request either:
after the report, a timer expiry and a receive on the mailbox, nothing is
pending and no further attempt was made. The same attempt failing with the
recoverable status join-failed sets the retry timer. -/
theorem C15_unknown_status_strands_the_node :
    sender_thread ⟨2, NodeClass.LS_ED_CLASS_A⟩ sample_consts
        (sample_env (LoramacStatus.other 99) LoramacStatus.NOT_JOINED []) ⟨0, 0⟩
        sample_msg_join = (⟨1, 0⟩, [Effect.join_attempt]) ∧
    (sender_thread ⟨2, NodeClass.LS_ED_CLASS_A⟩ sample_consts
        (sample_env (LoramacStatus.other 99) LoramacStatus.NOT_JOINED []) ⟨0, 0⟩
        sample_msg_join).1 ≠ ⟨0, 0⟩ ∧
    World.run ⟨2, NodeClass.LS_ED_CLASS_A⟩ sample_consts ⟨⟨0, 0⟩, 1, false⟩
        [Event.join_msg_received
          (sample_env (LoramacStatus.other 99) LoramacStatus.NOT_JOINED []),
         Event.module_report sample_adc LoramacStatus.NOT_JOINED sample_report,
         Event.retry_timer_fired,
         Event.join_msg_received
          (sample_env (LoramacStatus.other 99) LoramacStatus.NOT_JOINED [])] =
      (⟨⟨1, 0⟩, 0, false⟩,
       [Effect.join_attempt,
        Effect.loramac_send [7, 0, 0, 0, 0, 0, 0, 0, 0, 0, 0, 0, 0, 0, 25, 66]]) ∧
    sender_thread ⟨2, NodeClass.LS_ED_CLASS_A⟩ sample_consts
        (sample_env LoramacStatus.JOIN_FAILED LoramacStatus.NOT_JOINED []) ⟨0, 0⟩
        sample_msg_join =
      (⟨1, 0⟩, [Effect.join_attempt, Effect.retry_timer_set 10000 30000 10000]) := by
  decide

/-! ## Buffer capacity and padding -/

theorem unwds_callback_length (st : SessionState) (adc : AdcEnv) (send_res : LoramacStatus)
    (buf : module_data_t) :
    (unwds_callback st adc send_res buf).1.length =
      if buf.length < 15 then 16 else if buf.length < 31 then 32 else buf.length := by
  unfold unwds_callback unwds_callback_frame
  by_cases h15 : buf.length < 15
  · simp only [h15, if_true]
    cases send_res <;> first
      | rfl
      | (by_cases h0 : st.current_join_retries = 0 <;> simp only [h0, if_true, if_false])
  · by_cases h31 : buf.length < 31
    · simp only [h15, h31, if_true, if_false]
      cases send_res <;> first
        | rfl
        | (by_cases h0 : st.current_join_retries = 0 <;> simp only [h0, if_true, if_false])
    · simp only [h15, h31, if_false]

/-- C16, evaluated where the code leaves the claim: for every capacity
`UNWDS_MAX_DATA_LEN`, a downlink payload of `UNWDS_MAX_DATA_LEN + 2` zero bytes
is accepted by `appdata_received`; the command handed to the router has
`UNWDS_MAX_DATA_LEN + 1` bytes, one more than the buffer holds, and the copy
writes index `UNWDS_MAX_DATA_LEN`. The encoder's part holds once the capacity
is at least 32: an accepted reply leaves with length 16 or 32, within the
capacity. -/
theorem C16_long_downlink_exceeds_capacity (k : UnwdsConsts) (env : Env) (st : SessionState) :
    router_calls (appdata_received k env st (List.replicate (k.UNWDS_MAX_DATA_LEN + 2) 0)).2 =
      [(0, List.replicate (k.UNWDS_MAX_DATA_LEN + 1) 0)] ∧
    (appdata_cmd env (List.replicate (k.UNWDS_MAX_DATA_LEN + 2) 0)).length =
      k.UNWDS_MAX_DATA_LEN + 1 ∧
    ¬ (appdata_cmd env (List.replicate (k.UNWDS_MAX_DATA_LEN + 2) 0)).length ≤
      k.UNWDS_MAX_DATA_LEN ∧
    (∀ garbage : module_data_t,
      (appdata_cmd { env with stack_cmd := garbage }
        (List.replicate (k.UNWDS_MAX_DATA_LEN + 2) 0)).data k.UNWDS_MAX_DATA_LEN = 0) ∧
    (32 ≤ k.UNWDS_MAX_DATA_LEN →
      ∀ (adc : AdcEnv) (send_res : LoramacStatus) (buf : module_data_t), buf.length ≤ 30 →
        ((unwds_callback st adc send_res buf).1.length = 16 ∨
          (unwds_callback st adc send_res buf).1.length = 32) ∧
        (unwds_callback st adc send_res buf).1.length ≤ k.UNWDS_MAX_DATA_LEN) := by
  refine ⟨?_, ?_, ?_, ?_, ?_⟩
  · rw [router_calls_appdata_received]
    simp [List.replicate_succ]
  · simp [appdata_cmd]
  · simp [appdata_cmd]
  · intro garbage
    simp [appdata_cmd, List.getD_eq_getElem?_getD]
  · intro hcap adc send_res buf hL
    have hl := unwds_callback_length st adc send_res buf
    by_cases h15 : buf.length < 15
    · simp only [h15, if_true] at hl
      rw [hl]
      exact ⟨Or.inl rfl, by omega⟩
    · have h31 : buf.length < 31 := by omega
      simp only [h15, h31, if_true, if_false] at hl
      rw [hl]
      exact ⟨Or.inr rfl, by omega⟩

theorem bytes_of_congr (d1 d2 : Nat → Nat) (n : Nat) (h : ∀ i, i < n → d1 i = d2 i) :
    bytes_of d1 n = bytes_of d2 n := by
  unfold bytes_of
  apply List.map_congr_left
  intro i hi
  exact h i (List.mem_range.1 hi)

theorem write_trailer_congr (adc : AdcEnv) (d1 d2 : Nat → Nat) (bytes : Nat)
    (hpad : ∀ i, i < bytes - 2 → d1 i = d2 i)
    (htemp : adc.temp_init ≠ 0 → d1 (bytes - 2) = d2 (bytes - 2))
    (hvref : adc.vref_init ≠ 0 → d1 (bytes - 1) = d2 (bytes - 1))
    (i : Nat) (hi : i < bytes) :
    write_trailer adc d1 bytes i = write_trailer adc d2 bytes i := by
  have key : (adc.temp_init ≠ 0 ∨ i ≠ bytes - 2) → (adc.vref_init ≠ 0 ∨ i ≠ bytes - 1) →
      d1 i = d2 i := by
    intro a b
    by_cases h2 : i = bytes - 2
    · rw [h2]
      exact htemp (a.resolve_right (not_not.2 h2))
    · by_cases h1 : i = bytes - 1
      · rw [h1]
        exact hvref (b.resolve_right (not_not.2 h1))
      · exact hpad i (by omega)
  unfold write_trailer store
  by_cases ht : adc.temp_init = 0
  · by_cases hv : adc.vref_init = 0
    · simp only [ht, hv, if_true]
      by_cases h1 : i = bytes - 1
      · simp only [h1, if_true]
      · by_cases h2 : i = bytes - 2
        · simp only [h1, h2, if_true, if_false]
        · simp only [h1, h2, if_false]
          exact key (Or.inr h2) (Or.inr h1)
    · simp only [ht, hv, if_true, if_false]
      by_cases h2 : i = bytes - 2
      · simp only [h2, if_true]
      · simp only [h2, if_false]
        exact key (Or.inr h2) (Or.inl hv)
  · by_cases hv : adc.vref_init = 0
    · simp only [ht, hv, if_true, if_false]
      by_cases h1 : i = bytes - 1
      · simp only [h1, if_true]
      · simp only [h1, if_false]
        exact key (Or.inl ht) (Or.inr h1)
    · simp only [ht, hv, if_false]
      exact key (Or.inl ht) (Or.inl hv)

/-- C17, the claim as stated fails: two replies of length 5 with the same five
content bytes and the same diagnostic readings, whose buffers differ at index 9
(beyond the length), are sent as different frames: byte 9 of the frame is the
buffer's byte 9. -/
theorem C17_padding_is_buffer_content :
    sample_report.length = sample_report_dirty.length ∧
    (∀ i, i < 5 → sample_report.data i = sample_report_dirty.data i) ∧
    sent_frames (unwds_callback ⟨0, 0⟩ sample_adc LoramacStatus.TX_SCHEDULED sample_report).2 =
      [[7, 0, 0, 0, 0, 0, 0, 0, 0, 0, 0, 0, 0, 0, 25, 66]] ∧
    sent_frames (unwds_callback ⟨0, 0⟩ sample_adc LoramacStatus.TX_SCHEDULED
        sample_report_dirty).2 =
      [[7, 0, 0, 0, 0, 0, 0, 0, 0, 238, 0, 0, 0, 0, 25, 66]] ∧
    sent_frames (unwds_callback ⟨0, 0⟩ sample_adc LoramacStatus.TX_SCHEDULED sample_report).2 ≠
      sent_frames (unwds_callback ⟨0, 0⟩ sample_adc LoramacStatus.TX_SCHEDULED
        sample_report_dirty).2 := by
  decide

theorem sent_frames_unwds_callback (st : SessionState) (adc : AdcEnv)
    (send_res : LoramacStatus) (buf : module_data_t) :
    sent_frames (unwds_callback st adc send_res buf).2 =
      if buf.length < 15 then [bytes_of (write_trailer adc buf.data 16) 16]
      else if buf.length < 31 then [bytes_of (write_trailer adc buf.data 32) 32]
      else [] := by
  unfold unwds_callback
  by_cases h15 : buf.length < 15
  · simp only [h15, if_true]
    exact unwds_callback_frame_sent st adc send_res buf 16
  · by_cases h31 : buf.length < 31
    · simp only [h15, h31, if_true, if_false]
      exact unwds_callback_frame_sent st adc send_res buf 32
    · simp only [h15, h31, if_false]
      rfl

/-- C17 as amended. The frame of `F` bytes (16 for a length below 15, else 32)
is the buffer's first `F` bytes with the trailer written over positions `F - 2`
and `F - 1` where the diagnostic lines initialise, so buffer content between
the reply's length and the frame size is transmitted. For every two replies of
the same length that agree at the indices below `F - 2`, and at `F - 2` or
`F - 1` where the respective diagnostic line does not initialise, under the
same diagnostic readings the payload passed to the send operation is identical,
whatever the buffers contain from index `F` on, the join-retry counter is and
the send operation answers. -/
theorem C17_frame_determined_below_frame_size (st1 st2 : SessionState) (adc : AdcEnv)
    (res1 res2 : LoramacStatus) (b1 b2 : module_data_t)
    (hlen : b1.length = b2.length)
    (hpad : ∀ i, i < (if b1.length < 15 then 16 else 32) - 2 → b1.data i = b2.data i)
    (htemp : adc.temp_init ≠ 0 →
      b1.data ((if b1.length < 15 then 16 else 32) - 2) =
        b2.data ((if b1.length < 15 then 16 else 32) - 2))
    (hvref : adc.vref_init ≠ 0 →
      b1.data ((if b1.length < 15 then 16 else 32) - 1) =
        b2.data ((if b1.length < 15 then 16 else 32) - 1)) :
    sent_frames (unwds_callback st1 adc res1 b1).2 =
      sent_frames (unwds_callback st2 adc res2 b2).2 := by
  rw [sent_frames_unwds_callback, sent_frames_unwds_callback, ← hlen]
  by_cases h15 : b1.length < 15
  · simp only [h15, if_true] at hpad htemp hvref ⊢
    rw [bytes_of_congr _ _ 16 (write_trailer_congr adc b1.data b2.data 16 hpad htemp hvref)]
  · by_cases h31 : b1.length < 31
    · simp only [h15, if_false] at hpad htemp hvref
      simp only [h15, h31, if_true, if_false]
      rw [bytes_of_congr _ _ 32 (write_trailer_congr adc b1.data b2.data 32 hpad htemp hvref)]
    · simp only [h15, h31, if_false]

/-- C17 as amended, at a concrete pair: the report of `sample_report` and the
same report in a buffer that differs only at index 20, beyond the 16-byte
frame, are sent as the same frame. -/
theorem C17_frame_determined_witness :
    sent_frames (unwds_callback ⟨0, 0⟩ sample_adc LoramacStatus.TX_SCHEDULED sample_report).2 =
      sent_frames (unwds_callback ⟨3, 0⟩ sample_adc LoramacStatus.NOT_JOINED
        { sample_report with data := store sample_report.data 20 238 }).2 :=
  C17_frame_determined_below_frame_size ⟨0, 0⟩ ⟨3, 0⟩ sample_adc LoramacStatus.TX_SCHEDULED
    LoramacStatus.NOT_JOINED sample_report
    { sample_report with data := store sample_report.data 20 238 } rfl
    (by decide) (by decide) (by decide)

/-! ## Reachable states of the session manager -/

theorem backoff_closed (n : Nat) (h1 : 1 ≤ n) (h120 : n ≤ 120) :
    backoff_lower n = 10000 + (n - 1) * 30000 ∧ backoff_upper n = 30000 + (n - 1) * 30000 := by
  have hl : (backoff_lower n : Int) = backoff_lower_raw n := by
    apply u32_of_nonneg_lt <;> (unfold backoff_lower_raw; omega)
  have hu : (backoff_upper n : Int) = backoff_upper_raw n := by
    apply u32_of_nonneg_lt <;> (unfold backoff_upper_raw; omega)
  unfold backoff_lower_raw at hl
  unfold backoff_upper_raw at hu
  constructor <;> omega

theorem retry_timers_append (xs ys : List Effect) :
    retry_timers (xs ++ ys) = retry_timers xs ++ retry_timers ys := by
  induction xs with
  | nil => rfl
  | cons x xs ih => cases x <;> simp [retry_timers, ih]

theorem retry_timers_appdata_received (k : UnwdsConsts) (env : Env) (st : SessionState)
    (buf : List Nat) : retry_timers (appdata_received k env st buf).2 = [] := by
  have hc : retry_timers
      (unwds_callback st env.adc env.send_res (appdata_reply k env buf).2).2 = [] := by
    rcases unwds_callback_effects st env.adc env.send_res (appdata_reply k env buf).2 with
      h | ⟨p, h⟩ | ⟨p, h⟩ <;> simp [h, retry_timers]
  rw [appdata_received_effects]
  by_cases h2 : buf.length < 2
  · simp [h2, retry_timers]
  · by_cases hn : (appdata_reply k env buf).1 = k.UNWDS_MODULE_NO_DATA
    · simp [h2, hn, retry_timers]
    · simp [h2, hn, retry_timers, hc]

theorem sender_thread_step_bounds (cfg : NodeSettings) (k : UnwdsConsts) (env : Env)
    (st : SessionState) (msg : msg_t) (h : st.current_join_retries ≤ 120) :
    (sender_thread cfg k env st msg).1.current_join_retries ≤ 120 ∧
    (retry_timers (sender_thread cfg k env st msg).2 = [] ∨
      ∃ n, 1 ≤ n ∧ n ≤ 120 ∧
        retry_timers (sender_thread cfg k env st msg).2 =
          [(backoff_lower n, backoff_upper n,
            env.random_uint32_range (backoff_lower n) (backoff_upper n))]) := by
  have hn1 : 1 ≤ (node_join st).current_join_retries := by
    rw [node_join_retries]; split <;> omega
  have hn2 : (node_join st).current_join_retries ≤ 120 := by
    rw [node_join_retries]; split <;> omega
  by_cases hmsg : msg.sender_pid = env.loramac_pid
  · unfold sender_thread
    simp only [hmsg, ne_eq, not_true_eq_false, if_false]
    cases msg.type with
    | TX_DONE => exact ⟨h, Or.inl rfl⟩
    | TX_CNF_FAILED =>
      by_cases hc : (st.uplinks_failed + 1) % 256 > cfg.max_retr
      · simp only [hc, if_true]
        exact ⟨by omega, Or.inl rfl⟩
      · simp only [hc, if_false]
        exact ⟨h, Or.inl rfl⟩
    | RX =>
      by_cases hb : env.rx_payload.length = 0 ∧ env.rx_ack = true
      · simp only [hb, and_self, if_true]
        exact ⟨h, Or.inl rfl⟩
      · simp only [hb, if_false]
        refine ⟨h, Or.inl ?_⟩
        show retry_timers (appdata_received k env st env.rx_payload).2 = []
        exact retry_timers_appdata_received k env st env.rx_payload
    | JOIN => exact ⟨h, Or.inl rfl⟩
    | other t => exact ⟨h, Or.inl rfl⟩
  · have hfail : ∀ r : SessionState × List Effect,
        r = (if (node_join st).current_join_retries > cfg.max_retr ∧
              cfg.nodeclass = NodeClass.LS_ED_CLASS_A then
            ({ node_join st with current_join_retries := 0 }, [Effect.join_attempt])
          else
            (node_join st,
             [Effect.join_attempt,
              Effect.retry_timer_set (backoff_lower (node_join st).current_join_retries)
                (backoff_upper (node_join st).current_join_retries)
                (env.random_uint32_range (backoff_lower (node_join st).current_join_retries)
                  (backoff_upper (node_join st).current_join_retries))])) →
        r.1.current_join_retries ≤ 120 ∧
        (retry_timers r.2 = [] ∨
          ∃ n, 1 ≤ n ∧ n ≤ 120 ∧
            retry_timers r.2 =
              [(backoff_lower n, backoff_upper n,
                env.random_uint32_range (backoff_lower n) (backoff_upper n))]) := by
      intro r hr
      by_cases hc : (node_join st).current_join_retries > cfg.max_retr ∧
          cfg.nodeclass = NodeClass.LS_ED_CLASS_A
      · rw [if_pos hc] at hr
        rw [hr]
        exact ⟨Nat.zero_le _, Or.inl rfl⟩
      · rw [if_neg hc] at hr
        rw [hr]
        exact ⟨hn2, Or.inr ⟨_, hn1, hn2, rfl⟩⟩
    unfold sender_thread
    simp only [hmsg, ne_eq, not_false_eq_true, if_true]
    cases env.join_res with
    | JOIN_SUCCEEDED => exact ⟨Nat.zero_le _, Or.inl rfl⟩
    | RESTRICTED => exact hfail _ rfl
    | BUSY => exact hfail _ rfl
    | NOT_JOINED => exact hfail _ rfl
    | JOIN_FAILED => exact hfail _ rfl
    | TX_SCHEDULED => exact ⟨hn2, Or.inl rfl⟩
    | other c => exact ⟨hn2, Or.inl rfl⟩

theorem sender_run_bounds (cfg : NodeSettings) (k : UnwdsConsts) (inputs : List (Env × msg_t)) :
    ∀ st : SessionState, st.current_join_retries ≤ 120 →
      (sender_run cfg k st inputs).1.current_join_retries ≤ 120 ∧
      ∀ t ∈ retry_timers (sender_run cfg k st inputs).2,
        ∃ x ∈ inputs, ∃ n, 1 ≤ n ∧ n ≤ 120 ∧
          t = (backoff_lower n, backoff_upper n,
               x.1.random_uint32_range (backoff_lower n) (backoff_upper n)) := by
  induction inputs with
  | nil =>
    intro st h
    refine ⟨h, ?_⟩
    intro t ht
    simp [sender_run, retry_timers] at ht
  | cons x xs ih =>
    intro st h
    have hs := sender_thread_step_bounds cfg k x.1 st x.2 h
    have hr := ih (sender_thread cfg k x.1 st x.2).1 hs.1
    refine ⟨hr.1, ?_⟩
    intro t ht
    simp only [sender_run, retry_timers_append, List.mem_append] at ht
    rcases ht with ht | ht
    · rcases hs.2 with he | ⟨n, hn1, hn2, he⟩
      · rw [he] at ht
        simp at ht
      · rw [he] at ht
        refine ⟨x, List.mem_cons_self x xs, n, hn1, hn2, ?_⟩
        simpa using ht
    · rcases hr.2 t ht with ⟨y, hy, n, hn1, hn2, he⟩
      exact ⟨y, List.mem_cons_of_mem x hy, n, hn1, hn2, he⟩

/-- C18. From the initial state (both counters 0), after every sequence of
messages handled by the sender thread, whatever the surroundings answer, the
join-retry counter is at most 120. Every retry timer set along the way was
computed from a count `n` with `1 ≤ n ≤ 120`, so `(n - 1) * 30000` is not
negative and the bounds are `10000 + (n-1)*30000` and `30000 + (n-1)*30000`;
and when the random source returns a value in `[lower, upper)` whenever
`lower < upper`, the delay lies in `[lower, upper)` and hence in
`[10000, 3600000)` ms: at most one hour between attempts. -/
theorem C18_counter_at_most_120_delay_below_one_hour (cfg : NodeSettings) (k : UnwdsConsts)
    (inputs : List (Env × msg_t))
    (hrnd : ∀ x ∈ inputs, ∀ a b : Nat, a < b →
      a ≤ x.1.random_uint32_range a b ∧ x.1.random_uint32_range a b < b) :
    (sender_run cfg k ⟨0, 0⟩ inputs).1.current_join_retries ≤ 120 ∧
    ∀ t ∈ retry_timers (sender_run cfg k ⟨0, 0⟩ inputs).2,
      (∃ n : Nat, 1 ≤ n ∧ n ≤ 120 ∧ 0 ≤ ((n : Int) - 1) * 30000 ∧
        t.1 = 10000 + (n - 1) * 30000 ∧ t.2.1 = 30000 + (n - 1) * 30000) ∧
      t.1 ≤ t.2.2 ∧ t.2.2 < t.2.1 ∧
      10000 ≤ t.2.2 ∧ t.2.2 < 3600000 := by
  have hb := sender_run_bounds cfg k inputs ⟨0, 0⟩ (Nat.zero_le _)
  refine ⟨hb.1, ?_⟩
  intro t ht
  rcases hb.2 t ht with ⟨x, hx, n, hn1, hn2, he⟩
  have hc := backoff_closed n hn1 hn2
  have hlt : backoff_lower n < backoff_upper n := by omega
  have hr := hrnd x hx (backoff_lower n) (backoff_upper n) hlt
  rw [he]
  refine ⟨⟨n, hn1, hn2, ?_, hc.1, hc.2⟩, hr.1, hr.2, ?_, ?_⟩
  · have : (1 : Int) ≤ (n : Int) := by exact_mod_cast hn1
    nlinarith
  · show 10000 ≤ x.1.random_uint32_range (backoff_lower n) (backoff_upper n)
    omega
  · show x.1.random_uint32_range (backoff_lower n) (backoff_upper n) < 3600000
    omega

/-- C18 at a concrete run of a class-C node: two join requests that both fail
set the timers with bounds (10000, 30000) and (40000, 60000); the counter ends
at 2. -/
theorem C18_counter_and_delay_witness :
    retry_timers (sender_run ⟨2, NodeClass.LS_ED_CLASS_C⟩ sample_consts ⟨0, 0⟩
      [(sample_env LoramacStatus.JOIN_FAILED LoramacStatus.TX_SCHEDULED [], sample_msg_join),
       (sample_env LoramacStatus.BUSY LoramacStatus.TX_SCHEDULED [], sample_msg_join)]).2 =
      [(10000, 30000, 10000), (40000, 60000, 40000)] ∧
    (sender_run ⟨2, NodeClass.LS_ED_CLASS_C⟩ sample_consts ⟨0, 0⟩
      [(sample_env LoramacStatus.JOIN_FAILED LoramacStatus.TX_SCHEDULED [], sample_msg_join),
       (sample_env LoramacStatus.BUSY LoramacStatus.TX_SCHEDULED [], sample_msg_join)]
      ).1.current_join_retries ≤ 120 ∧
    ∀ t ∈ retry_timers (sender_run ⟨2, NodeClass.LS_ED_CLASS_C⟩ sample_consts ⟨0, 0⟩
      [(sample_env LoramacStatus.JOIN_FAILED LoramacStatus.TX_SCHEDULED [], sample_msg_join),
       (sample_env LoramacStatus.BUSY LoramacStatus.TX_SCHEDULED [], sample_msg_join)]).2,
      10000 ≤ t.2.2 ∧ t.2.2 < 3600000 :=
  have h := C18_counter_at_most_120_delay_below_one_hour ⟨2, NodeClass.LS_ED_CLASS_C⟩
    sample_consts
    [(sample_env LoramacStatus.JOIN_FAILED LoramacStatus.TX_SCHEDULED [], sample_msg_join),
     (sample_env LoramacStatus.BUSY LoramacStatus.TX_SCHEDULED [], sample_msg_join)]
    (by
      intro x hx a b hab
      simp only [List.mem_cons, List.mem_singleton, List.not_mem_nil, or_false] at hx
      rcases hx with rfl | rfl <;> exact ⟨Nat.le_refl a, hab⟩)
  ⟨by decide, h.1, fun t ht => (h.2 t ht).2.2.2⟩

end Riot
